import Mathlib

/-!
# Two-way-ranging tag (`src/uwb_twr_tag.c`)

A shallow embedding of the tag side of the double-sided two-way-ranging
exchange, followed by theorems about it.

Modelling conventions.

* `uint8_t`, `uint32_t`, `unsigned int` and `uint64_t` values are natural
  numbers; every operation that can overflow carries its `% 2^w`.
* A `double` is a value of `Double`: an exact rational or one of the three
  IEEE special values.  Finite arithmetic is exact (no rounding, no overflow
  to infinity); the special values follow the IEEE rules.  Zero is unsigned
  and divides like `+0`.
* A C array is a function from the index to the byte stored there; `memcpy`
  and `memcmp` take the byte count, as in C.  Multi-byte values are stored
  least significant byte first, as on the target.
* The radio driver is outside the file.  What its accessors return during a
  callback is collected in `dwDevice_t`; the commands sent to it
  (`dwNewTransmit`, `dwSetData`, `dwStartTransmit`, ...) leave the variables
  of this file alone and are not part of the state.
-/

namespace UwbTwrTag

/-! ## Doubles -/

/-- Values of the C type `double`: exact rationals and the IEEE special values. -/
inductive Double where
  | fin (q : ℚ)
  | pinf
  | ninf
  | nan
deriving DecidableEq

namespace Double

/-- Unary minus. -/
def neg : Double → Double
  | fin q => fin (-q)
  | pinf => ninf
  | ninf => pinf
  | nan => nan

/-- Addition of doubles. -/
def add : Double → Double → Double
  | fin a, fin b => fin (a + b)
  | fin _, pinf => pinf
  | fin _, ninf => ninf
  | pinf, fin _ => pinf
  | pinf, pinf => pinf
  | pinf, ninf => nan
  | ninf, fin _ => ninf
  | ninf, pinf => nan
  | ninf, ninf => ninf
  | nan, _ => nan
  | fin _, nan => nan
  | pinf, nan => nan
  | ninf, nan => nan

/-- Subtraction of doubles. -/
def sub (x y : Double) : Double := add x (neg y)

/-- The infinity whose sign is the sign of `a * b`, where `a` is non-zero and
`b` is the sign of the infinite factor; `nan` for `0 * inf`. -/
def infTimes (a : ℚ) (positive : Bool) : Double :=
  if a = 0 then nan
  else if (0 < a) = positive then pinf else ninf

/-- Multiplication of doubles. -/
def mul : Double → Double → Double
  | fin a, fin b => fin (a * b)
  | fin a, pinf => infTimes a true
  | fin a, ninf => infTimes a false
  | pinf, fin b => infTimes b true
  | ninf, fin b => infTimes b false
  | pinf, pinf => pinf
  | pinf, ninf => ninf
  | ninf, pinf => ninf
  | ninf, ninf => pinf
  | nan, _ => nan
  | fin _, nan => nan
  | pinf, nan => nan
  | ninf, nan => nan

/-- Division of doubles; a zero divisor counts as `+0`. -/
def div : Double → Double → Double
  | fin a, fin b =>
      if b = 0 then (if a = 0 then nan else if 0 < a then pinf else ninf)
      else fin (a / b)
  | fin _, pinf => fin 0
  | fin _, ninf => fin 0
  | pinf, fin b => if 0 ≤ b then pinf else ninf
  | ninf, fin b => if 0 ≤ b then ninf else pinf
  | pinf, pinf => nan
  | pinf, ninf => nan
  | ninf, pinf => nan
  | ninf, ninf => nan
  | nan, _ => nan
  | fin _, nan => nan
  | pinf, nan => nan
  | ninf, nan => nan

instance : Add Double := ⟨add⟩
instance : Sub Double := ⟨sub⟩
instance : Mul Double := ⟨mul⟩
instance : Div Double := ⟨div⟩

/-- The C library's `fmax`: a NaN argument is treated as missing data. -/
def fmax : Double → Double → Double
  | nan, y => y
  | fin a, fin b => fin (max a b)
  | fin a, ninf => fin a
  | fin _, pinf => pinf
  | fin a, nan => fin a
  | pinf, _ => pinf
  | ninf, fin b => fin b
  | ninf, pinf => pinf
  | ninf, ninf => ninf
  | ninf, nan => ninf

/-- The C library's `fmin`: a NaN argument is treated as missing data. -/
def fmin : Double → Double → Double
  | nan, y => y
  | fin a, fin b => fin (min a b)
  | fin a, pinf => fin a
  | fin _, ninf => ninf
  | fin a, nan => fin a
  | ninf, _ => ninf
  | pinf, fin b => fin b
  | pinf, ninf => ninf
  | pinf, pinf => pinf
  | pinf, nan => pinf

/-- The comparison `x <= y` of doubles; false as soon as one side is a NaN. -/
def le : Double → Double → Prop
  | fin a, fin b => a ≤ b
  | fin _, pinf => True
  | ninf, fin _ => True
  | ninf, ninf => True
  | ninf, pinf => True
  | pinf, pinf => True
  | fin _, ninf => False
  | pinf, fin _ => False
  | pinf, ninf => False
  | nan, _ => False
  | fin _, nan => False
  | pinf, nan => False
  | ninf, nan => False

instance : LE Double := ⟨le⟩

instance decLe (x y : Double) : Decidable (x ≤ y) := by
  cases x <;> cases y <;> simp only [LE.le, le] <;> infer_instance

/-- Conversion of an unsigned integer to `double` (exact). -/
def ofNat (n : Nat) : Double := fin (n : ℚ)

/-- A double that is an ordinary number. -/
def isFinite : Double → Bool
  | fin _ => true
  | _ => false

end Double

/-- The largest finite double, `DBL_MAX` of `<float.h>`. -/
def DBL_MAX : Double := Double.fin ((2 ^ 53 - 1) * 2 ^ 971)

/-- The smallest positive normalised double, `DBL_MIN` of `<float.h>`. -/
def DBL_MIN : Double := Double.fin (1 / 2 ^ 1022)

/-! ## Constants and types of the file -/

def POLL : Nat := 0x01
def ANSWER : Nat := 0x02
def FINAL : Nat := 0x03
def REPORT : Nat := 0x04

def TYPE : Nat := 0
def SEQ : Nat := 1

/-- Speed of light. -/
def C : ℚ := 299792458

/-- Timestamp counter frequency, `499.2e6 * 128`. -/
def tsfreq : ℚ := 499200000 * 128

/-- Antenna offset in metres, `154.6`. -/
def ANTENNA_OFFSET : ℚ := 1546 / 10

/-- Antenna delay in radio ticks. -/
def ANTENNA_DELAY : ℚ := (ANTENNA_OFFSET * 499200000 * 128) / 299792458

/-- The variable `g_stats` has this type. -/
structure stats where
  interrogations : Nat
  successful_interrogations : Nat
  min_distance : Double
  max_distance : Double
  avg_distance : Double
  avg_rssi : Double

def C_INIT_STATS : stats :=
  { interrogations := 0
    successful_interrogations := 0
    min_distance := DBL_MAX
    max_distance := DBL_MIN
    avg_distance := Double.fin 0
    avg_rssi := Double.fin 0 }

/-- The fields of `packet_t` (declared in `mac.h`) that the file reads or writes. -/
structure packet_t where
  destAddress : Nat → Nat
  sourceAddress : Nat → Nat
  payload : Nat → Nat

/-- What the driver's accessors return during one callback: `dwGetDataLength`,
the bytes `dwGetData` leaves in `rxPacket`, `dwGetReceiveTimestamp`,
`dwGetTransmitTimestamp` (both as the value of `.full`) and
`dwGetReceivePower`. -/
structure dwDevice_t where
  dataLength : Nat
  rxPacket : packet_t
  receiveTimestamp : Nat
  transmitTimestamp : Nat
  receivePower : ℚ

/-- The file's variables.  A `dwTime_t` is kept as the value of its 64-bit
member `full`. -/
structure State where
  base_address : Nat → Nat
  poll_tx : Nat
  poll_rx : Nat
  answer_tx : Nat
  answer_rx : Nat
  final_tx : Nat
  final_rx : Nat
  g_stats : stats
  txPacket : packet_t
  curr_seq : Nat
  config_address : Nat → Nat

/-! ## Helpers for C primitives -/

/-- The call `memcpy(dst, src, n)`: the array `dst` afterwards. -/
def memcpy (dst src : Nat → Nat) (n : Nat) : Nat → Nat :=
  fun i => if i < n then src i else dst i

/-- The call `memcmp(a, b, n) != 0`: some byte among the first `n` differs. -/
def memcmp (a b : Nat → Nat) (n : Nat) : Bool :=
  (List.range n).any fun i => a i != b i

/-- The number that `n` bytes starting at `p[off]` form, least significant first. -/
def leBytes (p : Nat → Nat) (off : Nat) : Nat → Nat
  | 0 => 0
  | n + 1 => p off + 256 * leBytes p (off + 1) n

/-- The call `memcpy(&t, p + off, 5)` on a `dwTime_t` whose `full` is `t`:
the low five bytes are replaced, the upper three are kept. -/
def memcpyTime (t : Nat) (p : Nat → Nat) (off : Nat) : Nat :=
  (t / 2 ^ 40) * 2 ^ 40 + leBytes p off 5 % 2 ^ 40

/-- The member `low32` of a `dwTime_t`. -/
def low32 (t : Nat) : Nat := t % 2 ^ 32

/-- Subtraction of two `uint32_t` values `a` and `b`. -/
def sub32 (a b : Nat) : Nat := (a + 2 ^ 32 - b) % 2 ^ 32

/-- Conversion of a `double` to `uint64_t`: the fraction is dropped.  A
negative operand, which ISO C leaves undefined, gives 0. -/
def toUInt64 (x : ℚ) : Nat := Int.toNat (Rat.floor x) % 2 ^ 64

/-- The statement `t.full += (ANTENNA_DELAY/2)`: the sum is formed in
`double` (exactly, for a `full` below `2^53`) and converted back. -/
def addHalfDelay (full : Nat) : Nat := toUInt64 ((full : ℚ) + ANTENNA_DELAY / 2)

/-- The statement `t.full -= (ANTENNA_DELAY/2)`: the difference is formed in
`double` and converted back. -/
def subHalfDelay (full : Nat) : Nat := toUInt64 ((full : ℚ) - ANTENNA_DELAY / 2)

/-! ## The functions of the file -/

/-- The function `txcallback`. -/
def txcallback (dev : dwDevice_t) (s : State) : State :=
  let departure := addHalfDelay dev.transmitTimestamp
  if s.txPacket.payload 0 = POLL then { s with poll_tx := departure }
  else if s.txPacket.payload 0 = FINAL then { s with final_tx := departure }
  else s

/-- The four intervals of lines 201-204, as unsigned 32-bit numbers:
`tround1`, `treply1`, `tround2`, `treply2`. -/
def tround1 (s : State) : Nat := sub32 (low32 s.answer_rx) (low32 s.poll_tx)
def treply1 (s : State) : Nat := sub32 (low32 s.answer_tx) (low32 s.poll_rx)
def tround2 (s : State) : Nat := sub32 (low32 s.final_rx) (low32 s.answer_tx)
def treply2 (s : State) : Nat := sub32 (low32 s.final_tx) (low32 s.answer_rx)

/-- Lines 201-209: the local `distance`, from the six timestamps of `s`. -/
def distance (s : State) : Double :=
  let tround1 := Double.ofNat (tround1 s)
  let treply1 := Double.ofNat (treply1 s)
  let tround2 := Double.ofNat (tround2 s)
  let treply2 := Double.ofNat (treply2 s)
  let tprop_ctn := ((tround1 * tround2) - (treply1 * treply2)) / (tround1 + tround2 + treply1 + treply2)
  let tprop := tprop_ctn / Double.fin tsfreq
  Double.fin C * tprop

/-- The members `pollRx`, `answerTx` and `finalRx` of the `reportPayload_t`
at `rxPacket.payload + 2`, each five bytes, read as numbers. -/
def pollRx (rxPacket : packet_t) : Nat := leBytes rxPacket.payload 2 5
def answerTx (rxPacket : packet_t) : Nat := leBytes rxPacket.payload 7 5
def finalRx (rxPacket : packet_t) : Nat := leBytes rxPacket.payload 12 5

/-- Lines 197-199: the three timestamps of the report are copied out of
`rxPacket.payload + 2`. -/
def copyReport (rxPacket : packet_t) (s : State) : State :=
  { s with
    poll_rx := memcpyTime s.poll_rx rxPacket.payload 2
    answer_tx := memcpyTime s.answer_tx rxPacket.payload 7
    final_rx := memcpyTime s.final_rx rxPacket.payload 12 }

/-- Lines 211-225: the statistics after a sample `distance` received with
power `power`. -/
def updateStats (g : stats) (distance : Double) (power : ℚ) : stats :=
  { interrogations := g.interrogations
    successful_interrogations := (g.successful_interrogations + 1) % 2 ^ 32
    max_distance := Double.fmax g.max_distance distance
    min_distance := Double.fmin g.min_distance distance
    avg_distance :=
      if g.successful_interrogations = 0 then distance
      else g.avg_distance + distance / Double.ofNat g.successful_interrogations
    avg_rssi :=
      if g.successful_interrogations = 0 then Double.fin power
      else g.avg_rssi + Double.fin power / Double.ofNat g.successful_interrogations }

/-- The function `rxcallback`.  The local `arival` of lines 222-223 is
computed and never stored, so it does not appear. -/
def rxcallback (dev : dwDevice_t) (s : State) : State :=
  if dev.dataLength = 0 then s
  else
    let rxPacket := dev.rxPacket
    if memcmp rxPacket.destAddress s.config_address 8 then s
    else
      let s1 : State :=
        { s with
          txPacket :=
            { s.txPacket with
              destAddress := memcpy s.txPacket.destAddress rxPacket.sourceAddress 8
              sourceAddress := memcpy s.txPacket.sourceAddress rxPacket.destAddress 8 } }
      if rxPacket.payload TYPE = ANSWER then
        if rxPacket.payload SEQ ≠ s.curr_seq then s1
        else
          { s1 with
            txPacket :=
              { s1.txPacket with
                payload :=
                  Function.update (Function.update s1.txPacket.payload 0 FINAL) SEQ
                    (rxPacket.payload SEQ) }
            answer_rx := subHalfDelay dev.receiveTimestamp }
      else if rxPacket.payload TYPE = REPORT then
        if rxPacket.payload SEQ ≠ s.curr_seq then s1
        else
          let s2 := copyReport rxPacket s1
          { s2 with g_stats := updateStats s2.g_stats (distance s2) dev.receivePower }
      else s1

/-- The five arguments of the `printf` in `printStats`, each under the label
the format string prints before it. -/
structure StatsLine where
  max : Double
  min : Double
  avg : Double
  plr : Double
  rssi : Double

/-- The last argument of the `printf` in `printStats`; the division is the
division of two `unsigned int`, undefined when the divisor is zero. -/
def lossValue (g : stats) : Option Double :=
  if g.interrogations = 0 then none
  else
    some (Double.fin
      ((((g.interrogations + 2 ^ 32 - g.successful_interrogations) % 2 ^ 32
          / g.interrogations : Nat) : ℚ) * 100))

/-- The function `printStats`: the line printed and the state afterwards. -/
def printStats (s : State) : Option (StatsLine × State) :=
  match lossValue s.g_stats with
  | none => none
  | some loss =>
      some
        ({ max := s.g_stats.max_distance
           min := s.g_stats.min_distance
           avg := s.g_stats.avg_distance
           plr := s.g_stats.avg_rssi
           rssi := loss },
         { s with g_stats := C_INIT_STATS })

/-- The function `initiateRanging`. -/
def initiateRanging (s : State) : State :=
  let base_address := Function.update s.base_address 0 1
  let curr_seq := (s.curr_seq + 1) % 256
  { s with
    base_address := base_address
    curr_seq := curr_seq
    txPacket :=
      { payload := Function.update (Function.update s.txPacket.payload TYPE POLL) SEQ curr_seq
        sourceAddress := memcpy s.txPacket.sourceAddress s.config_address 8
        destAddress := memcpy s.txPacket.destAddress base_address 8 }
    g_stats :=
      { s.g_stats with interrogations := (s.g_stats.interrogations + 1) % 2 ^ 32 } }

/-- The events of `uwbEvent_t` that `twrTagOnEvent` handles. -/
inductive uwbEvent_t where
  | eventPacketReceived
  | eventPacketSent
  | eventTimeout
  | eventReceiveFailed
deriving DecidableEq

/-- The function `twrTagOnEvent`: the delay returned and the state afterwards. -/
def twrTagOnEvent (dev : dwDevice_t) (event : uwbEvent_t) (s : State) : Nat × State :=
  match event with
  | .eventPacketReceived => (10, rxcallback dev s)
  | .eventPacketSent => (10, txcallback dev s)
  | .eventTimeout => (10, initiateRanging s)
  | .eventReceiveFailed => (10, s)

/-- The state after `n` calls `twrTagOnEvent(dev, eventTimeout)` in a row. -/
def timeouts (dev : dwDevice_t) : Nat → State → State
  | 0, s => s
  | n + 1, s => timeouts dev n (twrTagOnEvent dev uwbEvent_t.eventTimeout s).2

/-- The state after the events of `evs` have been handed to `twrTagOnEvent`
in turn, each with the driver's answers at that moment. -/
def runEvents : List (dwDevice_t × uwbEvent_t) → State → State
  | [], s => s
  | e :: evs, s => runEvents evs (twrTagOnEvent e.1 e.2 s).2

/-- No event of `evs` is a timeout. -/
def noTimeout (evs : List (dwDevice_t × uwbEvent_t)) : Bool :=
  evs.all fun e => e.2 != uwbEvent_t.eventTimeout

/-- The variables as the C initialisers leave them, for a node whose
configured address is `address`. -/
def initState (address : Nat → Nat) : State :=
  { base_address := fun i => if i = 6 then 0xcf else if i = 7 then 0xbc else 0
    poll_tx := 0
    poll_rx := 0
    answer_tx := 0
    answer_rx := 0
    final_tx := 0
    final_rx := 0
    g_stats := C_INIT_STATS
    txPacket :=
      { destAddress := fun _ => 0, sourceAddress := fun _ => 0, payload := fun _ => 0 }
    curr_seq := 0
    config_address := address }

/-- A REPORT that `rxcallback` accepts in state `s`: it has data, it is
addressed to this node and its sequence byte is `curr_seq`. -/
def isAcceptedReport (dev : dwDevice_t) (s : State) : Bool :=
  dev.dataLength != 0 && !memcmp dev.rxPacket.destAddress s.config_address 8
    && dev.rxPacket.payload TYPE == REPORT && dev.rxPacket.payload SEQ == s.curr_seq

/-- The state after `rxcallback` has handled the packets of `devs` in turn. -/
def feedReports : List dwDevice_t → State → State
  | [], s => s
  | dev :: devs, s => feedReports devs (rxcallback dev s)

/-- Every packet of `devs` is a REPORT accepted in the state it arrives in. -/
def allAccepted : List dwDevice_t → State → Bool
  | [], _ => true
  | dev :: devs, s => isAcceptedReport dev s && allAccepted devs (rxcallback dev s)

/-- The values of the local `distance` while `rxcallback` handles the
packets of `devs` in turn. -/
def samples : List dwDevice_t → State → List Double
  | [], _ => []
  | dev :: devs, s => distance (copyReport dev.rxPacket s) :: samples devs (rxcallback dev s)

/-- The distance formula in the words of the specification, over the
rationals: `C * ((tround1*tround2 - treply1*treply2) /
(tround1+tround2+treply1+treply2)) / tsfreq`. -/
def specDistance (tround1 treply1 tround2 treply2 : ℚ) : ℚ :=
  C * ((tround1 * tround2 - treply1 * treply2) / (tround1 + tround2 + treply1 + treply2)) / tsfreq

/-! ## Sample inputs -/

/-- An address of eight bytes for the tag in the examples. -/
def tagAddress : Nat → Nat := fun i => if i = 0 then 8 else if i = 6 then 0xcf else if i = 7 then 0xbc else 0

/-- The address `initiateRanging` polls. -/
def anchorAddress : Nat → Nat := fun i => if i = 0 then 1 else if i = 6 then 0xcf else if i = 7 then 0xbc else 0

/-- Byte `i` of the number `t`, least significant first. -/
def byteOf (t i : Nat) : Nat := t / 256 ^ i % 256

/-- A packet from the anchor to the tag with discriminator `kind`, `seq` and,
behind it, the three timestamps of a report; the sensor fields are zero. -/
def anchorPacket (kind seq pollRx answerTx finalRx : Nat) : packet_t :=
  { destAddress := tagAddress
    sourceAddress := anchorAddress
    payload := fun i =>
      if i = 0 then kind
      else if i = 1 then seq
      else if i < 7 then byteOf pollRx (i - 2)
      else if i < 12 then byteOf answerTx (i - 7)
      else if i < 17 then byteOf finalRx (i - 12)
      else 0 }

/-- The driver's answers while the packet `p` is being handled. -/
def received (p : packet_t) (receiveTimestamp : Nat) (receivePower : ℚ) : dwDevice_t :=
  { dataLength := 47
    rxPacket := p
    receiveTimestamp := receiveTimestamp
    transmitTimestamp := 0
    receivePower := receivePower }

/-- The tag after its first timeout: sequence number 1, one interrogation. -/
def firstCycle : State := initiateRanging (initState tagAddress)

/-- The first cycle with the POLL sent at 1000, the ANSWER received at 1200
and the FINAL sent at 1250. -/
def midCycle : State :=
  { firstCycle with poll_tx := 1000, answer_rx := 1200, final_tx := 1250 }

/-- The same point of the first cycle, the statistics just reset. -/
def resetCycle : State := { midCycle with g_stats := C_INIT_STATS }

/-- Ten interrogations of which five succeeded. -/
def halfLost : State :=
  { midCycle with
    g_stats := { C_INIT_STATS with interrogations := 10, successful_interrogations := 5 } }

/-- The first cycle with the POLL sent at 1000, the ANSWER received at 1200
and the FINAL sent at 1300. -/
def symCycle : State :=
  { firstCycle with poll_tx := 1000, answer_rx := 1200, final_tx := 1300 }

/-- A REPORT of cycle 1: POLL received at 1050, ANSWER sent at 1150, FINAL
received at 1350. -/
def symReport : dwDevice_t := received (anchorPacket REPORT 1 1050 1150 1350) 20000 (-80)

/-- An ANSWER with sequence number 1. -/
def lateAnswer : dwDevice_t := received (anchorPacket ANSWER 1 0 0 0) 20000 (-80)

/-- The same point of the first cycle with both counters at their largest value. -/
def fullCount : State :=
  { midCycle with
    g_stats :=
      { C_INIT_STATS with
        interrogations := 4294967295, successful_interrogations := 4294967295 } }

/-- The driver's answers while no packet has arrived. -/
def noPacket : dwDevice_t :=
  { dataLength := 0
    rxPacket := anchorPacket 0 0 0 0 0
    receiveTimestamp := 0
    transmitTimestamp := 0
    receivePower := 0 }

/-- An ANSWER of cycle 1 received at 200000, the POLL having left at 100000. -/
def timedAnswer : dwDevice_t :=
  { dataLength := 23
    rxPacket := anchorPacket ANSWER 1 0 0 0
    receiveTimestamp := 200000
    transmitTimestamp := 100000
    receivePower := -80 }

/-- The first cycle before any timestamp has been captured, the statistics
just reset. -/
def zeroCycle : State := { firstCycle with g_stats := C_INIT_STATS }

/-- A REPORT of cycle 1 whose three timestamps are zero. -/
def zeroReport : dwDevice_t := received (anchorPacket REPORT 1 0 0 0) 20000 (-80)

/-- An ANSWER with sequence number 2. -/
def staleAnswer : dwDevice_t := received (anchorPacket ANSWER 2 0 0 0) 20000 (-80)

/-- A REPORT of cycle 1: POLL received at 1050, ANSWER sent at 1150, FINAL
received at 1300. -/
def goodReport : dwDevice_t := received (anchorPacket REPORT 1 1050 1150 1300) 20000 (-80)

/-- The bytes of `base_address` that no statement of the file writes,
`base_address[1]` to `base_address[7]`, hold what the initialiser put there. -/
def baseAddressIntact (s : State) : Bool :=
  (List.range 8).all fun i => i == 0 || s.base_address i == anchorAddress i

/-- A REPORT of cycle 1 addressed to another node. -/
def foreignReport : dwDevice_t :=
  received { anchorPacket REPORT 1 1050 1150 1300 with destAddress := anchorAddress } 20000 (-80)

/-- The first cycle after the ANSWER has been handled: `txPacket` holds the
FINAL. -/
def finalCycle : State := rxcallback timedAnswer firstCycle

/-- The first cycle, the statistics just reset, with the POLL sent at 1000,
the ANSWER received at 1100 and the FINAL sent at 1250. -/
def negCycle : State :=
  { firstCycle with poll_tx := 1000, answer_rx := 1100, final_tx := 1250, g_stats := C_INIT_STATS }

/-- A REPORT of cycle 1: POLL received at 1050, ANSWER sent at 1250, FINAL
received at 1300. -/
def negReport : dwDevice_t := received (anchorPacket REPORT 1 1050 1250 1300) 20000 (-80)

/-- The REPORT of `goodReport` with other bytes in the four sensor fields
(`pressure`, `temperature`, `asl`, `pressure_ok`: `payload[17]` to
`payload[29]`). -/
def sensorReport : dwDevice_t :=
  received
    { anchorPacket REPORT 1 1050 1150 1300 with
      payload := fun i =>
        if 17 ≤ i ∧ i < 30 then 0xab else (anchorPacket REPORT 1 1050 1150 1300).payload i }
    20000 (-80)

/-- One thing that happens to the tag: the driver hands an event to
`twrTagOnEvent`, or `printStats` is called. -/
inductive Step where
  | event (dev : dwDevice_t) (ev : uwbEvent_t)
  | print

/-- The state after the steps of a list, in turn; `none` once `printStats`
has divided by zero. -/
def runSteps : List Step → State → Option State
  | [], s => some s
  | Step.event dev ev :: rest, s => runSteps rest (twrTagOnEvent dev ev s).2
  | Step.print :: rest, s =>
      match printStats s with
      | none => none
      | some r => runSteps rest r.2

/-- Along a run that starts in `s`: the number of timeouts and the number of
accepted REPORTs since the last call of `printStats`, counted on from `c`. -/
def tally : List Step → State → Nat × Nat → Nat × Nat
  | [], _, c => c
  | Step.event dev ev :: rest, s, c =>
      tally rest (twrTagOnEvent dev ev s).2
        (if ev = uwbEvent_t.eventTimeout then c.1 + 1 else c.1,
         if ev = uwbEvent_t.eventPacketReceived ∧ isAcceptedReport dev s = true then c.2 + 1
         else c.2)
  | Step.print :: rest, s, _ => tally rest { s with g_stats := C_INIT_STATS } (0, 0)

/-- Two cycles with a call of `printStats` between them, the second one
completed by a REPORT. -/
def twoCycleSteps : List Step :=
  [Step.event noPacket uwbEvent_t.eventTimeout, Step.print,
   Step.event noPacket uwbEvent_t.eventTimeout,
   Step.event (received (anchorPacket REPORT 2 1050 1150 1300) 20000 (-80))
     uwbEvent_t.eventPacketReceived]

/-- The state at the end of `twoCycleSteps`. -/
def twoCycles : State :=
  rxcallback (received (anchorPacket REPORT 2 1050 1150 1300) 20000 (-80))
    (initiateRanging { initiateRanging (initState tagAddress) with g_stats := C_INIT_STATS })

/-! ## Lemmas on doubles and C primitives -/

theorem Double.fin_add (a b : ℚ) : Double.fin a + Double.fin b = Double.fin (a + b) := rfl

theorem Double.fin_mul (a b : ℚ) : Double.fin a * Double.fin b = Double.fin (a * b) := rfl

theorem Double.fin_sub (a b : ℚ) : Double.fin a - Double.fin b = Double.fin (a - b) := by
  show Double.add (Double.fin a) (Double.neg (Double.fin b)) = _
  simp [Double.add, Double.neg, sub_eq_add_neg]

theorem Double.fin_div (a b : ℚ) (hb : b ≠ 0) :
    Double.fin a / Double.fin b = Double.fin (a / b) := by
  show Double.div (Double.fin a) (Double.fin b) = _
  simp [Double.div, hb]

theorem Double.zero_div_zero : Double.fin 0 / Double.fin 0 = Double.nan := by
  show Double.div (Double.fin 0) (Double.fin 0) = _
  simp [Double.div]

theorem Double.nan_div (x : Double) : Double.nan / x = Double.nan := by
  cases x <;> rfl

theorem Double.fin_mul_nan (a : ℚ) : Double.fin a * Double.nan = Double.nan := rfl

theorem tsfreq_pos : (0 : ℚ) < tsfreq := by norm_num [tsfreq]

theorem C_pos : (0 : ℚ) < C := by norm_num [C]

/-- With a non-zero sum of the four intervals the local `distance` is the
number the formula gives. -/
theorem distance_of_sum_ne_zero (s : State)
    (h : ((tround1 s : ℚ) + tround2 s + treply1 s + treply2 s) ≠ 0) :
    distance s =
      Double.fin (C * ((((tround1 s : ℚ) * tround2 s - treply1 s * treply2 s)
        / ((tround1 s : ℚ) + tround2 s + treply1 s + treply2 s)) / tsfreq)) := by
  have ht : tsfreq ≠ 0 := ne_of_gt tsfreq_pos
  simp only [distance, Double.ofNat, Double.fin_add, Double.fin_mul, Double.fin_sub]
  rw [Double.fin_div _ _ h, Double.fin_div _ _ ht, Double.fin_mul]

theorem low32_memcpyTime (t : Nat) (p : Nat → Nat) (off : Nat) :
    low32 (memcpyTime t p off) = low32 (leBytes p off 5) := by
  unfold low32 memcpyTime
  omega

/-- What `rxcallback` does with a report of the current cycle. -/
theorem rxcallback_report (dev : dwDevice_t) (s : State)
    (hlen : dev.dataLength ≠ 0)
    (hdest : memcmp dev.rxPacket.destAddress s.config_address 8 = false)
    (hkind : dev.rxPacket.payload TYPE = REPORT)
    (hseq : dev.rxPacket.payload SEQ = s.curr_seq) :
    rxcallback dev s =
      { copyReport dev.rxPacket s with
        txPacket :=
          { s.txPacket with
            destAddress := memcpy s.txPacket.destAddress dev.rxPacket.sourceAddress 8
            sourceAddress := memcpy s.txPacket.sourceAddress dev.rxPacket.destAddress 8 }
        g_stats := updateStats s.g_stats (distance (copyReport dev.rxPacket s)) dev.receivePower } := by
  have hk : dev.rxPacket.payload TYPE ≠ ANSWER := by rw [hkind]; decide
  simp [rxcallback, hlen, hdest, hkind, hseq, copyReport, distance, tround1, treply1, tround2,
    treply2]
  intro h
  exact absurd h (by decide)

/-- The four intervals after the report has been copied in, in terms of the
state before and the packet. -/
theorem intervals_copyReport (p : packet_t) (s : State) :
    tround1 (copyReport p s) = sub32 (low32 s.answer_rx) (low32 s.poll_tx) ∧
    treply1 (copyReport p s) = sub32 (low32 (answerTx p)) (low32 (pollRx p)) ∧
    tround2 (copyReport p s) = sub32 (low32 (finalRx p)) (low32 (answerTx p)) ∧
    treply2 (copyReport p s) = sub32 (low32 s.final_tx) (low32 s.answer_rx) := by
  simp [tround1, treply1, tround2, treply2, copyReport, low32_memcpyTime, answerTx, pollRx,
    finalRx]

/-- The statistics after a report of the current cycle whose four intervals
do not sum to zero. -/
theorem report_stats (dev : dwDevice_t) (s : State)
    (hlen : dev.dataLength ≠ 0)
    (hdest : memcmp dev.rxPacket.destAddress s.config_address 8 = false)
    (hkind : dev.rxPacket.payload TYPE = REPORT)
    (hseq : dev.rxPacket.payload SEQ = s.curr_seq)
    (hsum : sub32 (low32 s.answer_rx) (low32 s.poll_tx)
        + sub32 (low32 (answerTx dev.rxPacket)) (low32 (pollRx dev.rxPacket))
        + sub32 (low32 (finalRx dev.rxPacket)) (low32 (answerTx dev.rxPacket))
        + sub32 (low32 s.final_tx) (low32 s.answer_rx) ≠ 0) :
    (rxcallback dev s).g_stats =
      updateStats s.g_stats
        (Double.fin (specDistance
          (sub32 (low32 s.answer_rx) (low32 s.poll_tx))
          (sub32 (low32 (answerTx dev.rxPacket)) (low32 (pollRx dev.rxPacket)))
          (sub32 (low32 (finalRx dev.rxPacket)) (low32 (answerTx dev.rxPacket)))
          (sub32 (low32 s.final_tx) (low32 s.answer_rx))))
        dev.receivePower := by
  obtain ⟨h1, h2, h3, h4⟩ := intervals_copyReport dev.rxPacket s
  have hq : ((tround1 (copyReport dev.rxPacket s) : ℚ) + tround2 (copyReport dev.rxPacket s)
      + treply1 (copyReport dev.rxPacket s) + treply2 (copyReport dev.rxPacket s)) ≠ 0 := by
    rw [h1, h2, h3, h4]
    intro h0
    apply hsum
    have : ((sub32 (low32 s.answer_rx) (low32 s.poll_tx)
        + sub32 (low32 (answerTx dev.rxPacket)) (low32 (pollRx dev.rxPacket))
        + sub32 (low32 (finalRx dev.rxPacket)) (low32 (answerTx dev.rxPacket))
        + sub32 (low32 s.final_tx) (low32 s.answer_rx) : ℕ) : ℚ) = 0 := by
      push_cast
      linarith
    exact_mod_cast this
  rw [rxcallback_report dev s hlen hdest hkind hseq]
  simp only []
  rw [distance_of_sum_ne_zero _ hq, h1, h2, h3, h4]
  simp only [specDistance]
  congr 2
  ring

/-- A packet of kind ANSWER or REPORT whose sequence byte is not `curr_seq`
reaches neither the payload of `txPacket`, nor `curr_seq`, nor a timestamp,
nor the statistics. -/
theorem rxcallback_of_seq_ne (dev : dwDevice_t) (s : State)
    (hkind : dev.rxPacket.payload TYPE = ANSWER ∨ dev.rxPacket.payload TYPE = REPORT)
    (hseq : dev.rxPacket.payload SEQ ≠ s.curr_seq) :
    (rxcallback dev s).txPacket.payload = s.txPacket.payload ∧
    (rxcallback dev s).curr_seq = s.curr_seq ∧
    (rxcallback dev s).poll_tx = s.poll_tx ∧
    (rxcallback dev s).poll_rx = s.poll_rx ∧
    (rxcallback dev s).answer_tx = s.answer_tx ∧
    (rxcallback dev s).answer_rx = s.answer_rx ∧
    (rxcallback dev s).final_tx = s.final_tx ∧
    (rxcallback dev s).final_rx = s.final_rx ∧
    (rxcallback dev s).g_stats = s.g_stats := by
  have hk2 : REPORT ≠ ANSWER := by decide
  by_cases hlen : dev.dataLength = 0
  · simp [rxcallback, hlen]
  · cases hdest : memcmp dev.rxPacket.destAddress s.config_address 8
    · rcases hkind with hk | hk <;> simp [rxcallback, hlen, hdest, hk, hk2, hseq]
    · simp [rxcallback, hlen, hdest]

/-- A run of timeouts counts the interrogations modulo `2^32` and leaves the
other statistics alone. -/
theorem timeouts_stats (dev : dwDevice_t) (n : Nat) (s : State)
    (h : s.g_stats.interrogations < 2 ^ 32) :
    (timeouts dev n s).g_stats =
      { s.g_stats with interrogations := (s.g_stats.interrogations + n) % 2 ^ 32 } := by
  induction n generalizing s with
  | zero =>
    show s.g_stats = _
    rw [Nat.add_zero, Nat.mod_eq_of_lt h]
  | succ n ih =>
    show (timeouts dev n (initiateRanging s)).g_stats = _
    have hlt : (initiateRanging s).g_stats.interrogations < 2 ^ 32 :=
      Nat.mod_lt _ (by norm_num)
    rw [ih _ hlt]
    show ({ ({ s.g_stats with interrogations := (s.g_stats.interrogations + 1) % 2 ^ 32 } : stats)
        with interrogations := ((s.g_stats.interrogations + 1) % 2 ^ 32 + n) % 2 ^ 32 } : stats) = _
    have e : ((s.g_stats.interrogations + 1) % 2 ^ 32 + n) % 2 ^ 32
        = (s.g_stats.interrogations + (n + 1)) % 2 ^ 32 := by omega
    rw [e]

theorem rat_floor_eq (x : ℚ) : Rat.floor x = ⌊x⌋ :=
  (Rat.floor_def' x).trans Rat.floor_def.symm

theorem delay_bounds : (32951 : ℚ) < ANTENNA_DELAY ∧ ANTENNA_DELAY < 32952 := by
  constructor <;> norm_num [ANTENNA_DELAY, ANTENNA_OFFSET]

theorem half_delay_bounds : (16475 : ℚ) < ANTENNA_DELAY / 2 ∧ ANTENNA_DELAY / 2 < 16476 := by
  constructor <;> norm_num [ANTENNA_DELAY, ANTENNA_OFFSET]

/-- Adding half the antenna delay to a 40-bit timestamp adds 16475 ticks. -/
theorem addHalfDelay_eq (t : ℕ) (ht : t < 2 ^ 40) : addHalfDelay t = t + 16475 := by
  obtain ⟨hlo, hhi⟩ := half_delay_bounds
  have hf : Rat.floor ((t : ℚ) + ANTENNA_DELAY / 2) = ((t + 16475 : ℕ) : ℤ) := by
    rw [rat_floor_eq, Int.floor_eq_iff]
    push_cast
    constructor <;> linarith
  unfold addHalfDelay toUInt64
  rw [hf, Int.toNat_natCast]
  omega

/-- Subtracting half the antenna delay from a 40-bit timestamp that is at
least 16476 subtracts 16476 ticks. -/
theorem subHalfDelay_eq (r : ℕ) (hr : 16476 ≤ r) (hr2 : r < 2 ^ 40) :
    subHalfDelay r = r - 16476 := by
  obtain ⟨hlo, hhi⟩ := half_delay_bounds
  have hc : ((r - 16476 : ℕ) : ℚ) = (r : ℚ) - 16476 := by
    rw [Nat.cast_sub hr]
    norm_num
  have hf : Rat.floor ((r : ℚ) - ANTENNA_DELAY / 2) = ((r - 16476 : ℕ) : ℤ) := by
    rw [rat_floor_eq, Int.floor_eq_iff, Int.cast_natCast, hc]
    constructor <;> linarith
  unfold subHalfDelay toUInt64
  rw [hf, Int.toNat_natCast]
  omega

/-- With no interrogation counted, the division in `printStats` is a division
by zero. -/
theorem printStats_zero_interrogations (s : State) (h : s.g_stats.interrogations = 0) :
    printStats s = none := by
  unfold printStats lossValue
  rw [if_pos h]

/-- What `txcallback` stores after a POLL. -/
theorem txcallback_poll_tx (dev : dwDevice_t) (s : State) (h : s.txPacket.payload 0 = POLL) :
    (txcallback dev s).poll_tx = addHalfDelay dev.transmitTimestamp := by
  simp [txcallback, h]

/-- What `rxcallback` stores in `answer_rx` after an ANSWER of the current cycle. -/
theorem rxcallback_answer_rx (dev : dwDevice_t) (s : State)
    (hlen : dev.dataLength ≠ 0)
    (hdest : memcmp dev.rxPacket.destAddress s.config_address 8 = false)
    (hkind : dev.rxPacket.payload TYPE = ANSWER)
    (hseq : dev.rxPacket.payload SEQ = s.curr_seq) :
    (rxcallback dev s).answer_rx = subHalfDelay dev.receiveTimestamp := by
  simp [rxcallback, hlen, hdest, hkind, hseq]

theorem Double.le_def (x y : Double) : x ≤ y ↔ Double.le x y := Iff.rfl

theorem double_le_trans {x y z : Double} (h1 : x ≤ y) (h2 : y ≤ z) : x ≤ z := by
  cases x <;> cases y <;> cases z <;> simp only [Double.le_def, Double.le] at h1 h2 ⊢
  exact le_trans h1 h2

theorem double_le_refl {x : Double} (h : x ≠ Double.nan) : x ≤ x := by
  cases x <;> simp only [Double.le_def, Double.le] <;> first | exact le_refl _ | exact absurd rfl h

theorem fmin_le_left {m : Double} (d : Double) (h : m ≠ Double.nan) : Double.fmin m d ≤ m := by
  cases m <;> cases d <;> simp only [Double.le_def, Double.le, Double.fmin] <;>
    first | exact min_le_left _ _ | exact le_refl _ | exact absurd rfl h

theorem fmin_le_right (m : Double) {d : Double} (h : d ≠ Double.nan) : Double.fmin m d ≤ d := by
  cases m <;> cases d <;> simp only [Double.le_def, Double.le, Double.fmin] <;>
    first | exact min_le_right _ _ | exact le_refl _ | exact absurd rfl h

theorem fmin_ne_nan {m : Double} (d : Double) (h : m ≠ Double.nan) :
    Double.fmin m d ≠ Double.nan := by
  cases m <;> cases d <;> simp only [Double.fmin] <;>
    first | exact Double.noConfusion | exact absurd rfl h

theorem le_fmax_left {m : Double} (d : Double) (h : m ≠ Double.nan) : m ≤ Double.fmax m d := by
  cases m <;> cases d <;> simp only [Double.le_def, Double.le, Double.fmax] <;>
    first | exact le_max_left _ _ | exact le_refl _ | exact absurd rfl h

theorem le_fmax_right (m : Double) {d : Double} (h : d ≠ Double.nan) : d ≤ Double.fmax m d := by
  cases m <;> cases d <;> simp only [Double.le_def, Double.le, Double.fmax] <;>
    first | exact le_max_right _ _ | exact le_refl _ | exact absurd rfl h

theorem fmax_ne_nan {m : Double} (d : Double) (h : m ≠ Double.nan) :
    Double.fmax m d ≠ Double.nan := by
  cases m <;> cases d <;> simp only [Double.fmax] <;>
    first | exact Double.noConfusion | exact absurd rfl h

theorem isAcceptedReport_iff (dev : dwDevice_t) (s : State) :
    isAcceptedReport dev s = true ↔
      dev.dataLength ≠ 0 ∧ memcmp dev.rxPacket.destAddress s.config_address 8 = false ∧
      dev.rxPacket.payload TYPE = REPORT ∧ dev.rxPacket.payload SEQ = s.curr_seq := by
  simp [isAcceptedReport, and_assoc]

/-- The statistics after an accepted REPORT. -/
theorem accepted_report_stats (dev : dwDevice_t) (s : State)
    (h : isAcceptedReport dev s = true) :
    (rxcallback dev s).g_stats =
      updateStats s.g_stats (distance (copyReport dev.rxPacket s)) dev.receivePower := by
  obtain ⟨hlen, hdest, hkind, hseq⟩ := (isAcceptedReport_iff dev s).mp h
  rw [rxcallback_report dev s hlen hdest hkind hseq]

/-- Across a run of accepted REPORTs the minimum only falls, the maximum only
rises, and every sample that is a number lies between the two. -/
theorem feed_bounds (devs : List dwDevice_t) :
    ∀ s : State, allAccepted devs s = true →
      s.g_stats.min_distance ≠ Double.nan → s.g_stats.max_distance ≠ Double.nan →
      ((feedReports devs s).g_stats.min_distance ≤ s.g_stats.min_distance ∧
        s.g_stats.max_distance ≤ (feedReports devs s).g_stats.max_distance) ∧
      ∀ d ∈ samples devs s, d ≠ Double.nan →
        (feedReports devs s).g_stats.min_distance ≤ d ∧
        d ≤ (feedReports devs s).g_stats.max_distance := by
  induction devs with
  | nil =>
    intro s _ hmin hmax
    exact ⟨⟨double_le_refl hmin, double_le_refl hmax⟩, fun d hd => absurd hd (List.not_mem_nil d)⟩
  | cons dev devs ih =>
    intro s hacc hmin hmax
    have hacc2 : isAcceptedReport dev s = true ∧ allAccepted devs (rxcallback dev s) = true := by
      simpa [allAccepted] using hacc
    have hst := accepted_report_stats dev s hacc2.1
    have emin : (rxcallback dev s).g_stats.min_distance
        = Double.fmin s.g_stats.min_distance (distance (copyReport dev.rxPacket s)) := by
      rw [hst]; rfl
    have emax : (rxcallback dev s).g_stats.max_distance
        = Double.fmax s.g_stats.max_distance (distance (copyReport dev.rxPacket s)) := by
      rw [hst]; rfl
    have hmin2 : (rxcallback dev s).g_stats.min_distance ≠ Double.nan := by
      rw [emin]; exact fmin_ne_nan _ hmin
    have hmax2 : (rxcallback dev s).g_stats.max_distance ≠ Double.nan := by
      rw [emax]; exact fmax_ne_nan _ hmax
    obtain ⟨⟨ihmin, ihmax⟩, ihs⟩ := ih (rxcallback dev s) hacc2.2 hmin2 hmax2
    show ((feedReports devs (rxcallback dev s)).g_stats.min_distance ≤ s.g_stats.min_distance ∧
        s.g_stats.max_distance ≤ (feedReports devs (rxcallback dev s)).g_stats.max_distance) ∧
      ∀ d ∈ distance (copyReport dev.rxPacket s) :: samples devs (rxcallback dev s),
        d ≠ Double.nan →
        (feedReports devs (rxcallback dev s)).g_stats.min_distance ≤ d ∧
        d ≤ (feedReports devs (rxcallback dev s)).g_stats.max_distance
    refine ⟨⟨?_, ?_⟩, ?_⟩
    · refine double_le_trans ihmin ?_
      rw [emin]; exact fmin_le_left _ hmin
    · refine double_le_trans ?_ ihmax
      rw [emax]; exact le_fmax_left _ hmax
    · intro d hd hnum
      rcases List.mem_cons.mp hd with hd | hd
      · subst hd
        constructor
        · refine double_le_trans ihmin ?_
          rw [emin]; exact fmin_le_right _ hnum
        · refine double_le_trans ?_ ihmax
          rw [emax]; exact le_fmax_right _ hnum
      · exact ihs d hd hnum

/-- With all four intervals zero the local `distance` is a NaN. -/
theorem distance_of_zero_intervals (s : State) (h1 : tround1 s = 0) (h2 : treply1 s = 0)
    (h3 : tround2 s = 0) (h4 : treply2 s = 0) : distance s = Double.nan := by
  simp only [distance, h1, h2, h3, h4, Double.ofNat, Double.fin_add, Double.fin_mul,
    Double.fin_sub, Nat.cast_zero, mul_zero, sub_zero, add_zero, Double.zero_div_zero,
    Double.nan_div, Double.fin_mul_nan]

theorem rxcallback_curr_seq (dev : dwDevice_t) (s : State) :
    (rxcallback dev s).curr_seq = s.curr_seq := by
  unfold rxcallback
  simp only []
  split_ifs <;> rfl

theorem txcallback_curr_seq (dev : dwDevice_t) (s : State) :
    (txcallback dev s).curr_seq = s.curr_seq := by
  unfold txcallback
  simp only []
  split_ifs <;> rfl

/-- Only a timeout changes `curr_seq`. -/
theorem runEvents_curr_seq (evs : List (dwDevice_t × uwbEvent_t)) :
    ∀ s : State, noTimeout evs = true → (runEvents evs s).curr_seq = s.curr_seq := by
  induction evs with
  | nil => intro s _; rfl
  | cons e evs ih =>
    intro s h
    obtain ⟨dev, ev⟩ := e
    have h2 : ev ≠ uwbEvent_t.eventTimeout ∧ noTimeout evs = true := by
      simpa [noTimeout] using h
    show (runEvents evs (twrTagOnEvent dev ev s).2).curr_seq = s.curr_seq
    rw [ih _ h2.2]
    cases ev with
    | eventPacketReceived => exact rxcallback_curr_seq dev s
    | eventPacketSent => exact txcallback_curr_seq dev s
    | eventTimeout => exact absurd rfl h2.1
    | eventReceiveFailed => rfl

theorem baseAddressIntact_iff (s : State) :
    baseAddressIntact s = true ↔ ∀ i, 1 ≤ i → i < 8 → s.base_address i = anchorAddress i := by
  unfold baseAddressIntact
  simp only [List.all_eq_true, List.mem_range, Bool.or_eq_true, beq_iff_eq]
  constructor
  · intro h i h1 h8
    rcases h i h8 with h0 | h0
    · omega
    · exact h0
  · intro h i h8
    by_cases h0 : i = 0
    · exact Or.inl h0
    · exact Or.inr (h i (by omega) h8)

theorem range_eight : List.range 8 = [0, 1, 2, 3, 4, 5, 6, 7] := by decide

theorem memcmp_eq_false_iff (a b : Nat → Nat) (n : Nat) :
    memcmp a b n = false ↔ ∀ i, i < n → a i = b i := by
  simp [memcmp, List.any_eq_false]

theorem memcmp_eq_true_iff (a b : Nat → Nat) (n : Nat) :
    memcmp a b n = true ↔ ∃ i, i < n ∧ a i ≠ b i := by
  simp [memcmp, List.any_eq_true]

/-- The whole effect of `rxcallback` for an ANSWER of the current cycle. -/
theorem rxcallback_answer (dev : dwDevice_t) (s : State)
    (hlen : dev.dataLength ≠ 0)
    (hdest : memcmp dev.rxPacket.destAddress s.config_address 8 = false)
    (hkind : dev.rxPacket.payload TYPE = ANSWER)
    (hseq : dev.rxPacket.payload SEQ = s.curr_seq) :
    rxcallback dev s =
      { s with
        txPacket :=
          { destAddress := memcpy s.txPacket.destAddress dev.rxPacket.sourceAddress 8
            sourceAddress := memcpy s.txPacket.sourceAddress dev.rxPacket.destAddress 8
            payload := Function.update (Function.update s.txPacket.payload 0 FINAL) SEQ
              s.curr_seq }
        answer_rx := subHalfDelay dev.receiveTimestamp } := by
  simp [rxcallback, hlen, hdest, hkind, hseq]

theorem fmax_nan (x : Double) : Double.fmax x Double.nan = x := by
  cases x <;> rfl

theorem fmin_nan (x : Double) : Double.fmin x Double.nan = x := by
  cases x <;> rfl

theorem Double.add_nan (x : Double) : x + Double.nan = Double.nan := by
  cases x <;> rfl

/-- The statistics after a sample that is a NaN. -/
theorem updateStats_nan (g : stats) (power : ℚ) :
    (updateStats g Double.nan power).min_distance = g.min_distance ∧
    (updateStats g Double.nan power).max_distance = g.max_distance ∧
    (updateStats g Double.nan power).avg_distance = Double.nan := by
  refine ⟨fmin_nan _, fmax_nan _, ?_⟩
  show (if g.successful_interrogations = 0 then Double.nan
    else g.avg_distance + Double.nan / Double.ofNat g.successful_interrogations) = Double.nan
  split_ifs
  · rfl
  · rw [Double.nan_div, Double.add_nan]

theorem leBytes_congr (p q : Nat → Nat) (n : Nat) :
    ∀ off : Nat, (∀ i, off ≤ i → i < off + n → p i = q i) → leBytes p off n = leBytes q off n := by
  induction n with
  | zero => intro off _; rfl
  | succ n ih =>
    intro off h
    show p off + 256 * leBytes p (off + 1) n = q off + 256 * leBytes q (off + 1) n
    rw [h off (le_refl _) (by omega), ih (off + 1) (fun i h1 h2 => h i (by omega) (by omega))]

theorem memcmp_congr (a b c : Nat → Nat) (n : Nat) (h : ∀ i, i < n → a i = b i) :
    memcmp a c n = memcmp b c n := by
  cases hb : memcmp b c n
  · rw [memcmp_eq_false_iff] at hb ⊢
    intro i hi
    rw [h i hi, hb i hi]
  · rw [memcmp_eq_true_iff] at hb ⊢
    obtain ⟨i, hi, hne⟩ := hb
    exact ⟨i, hi, by rw [h i hi]; exact hne⟩

/-- Two packets with the same first seventeen payload bytes carry the same
three timestamps. -/
theorem copyReport_congr (p q : packet_t) (s : State)
    (h : ∀ i, i < 17 → p.payload i = q.payload i) : copyReport p s = copyReport q s := by
  have h1 : leBytes p.payload 2 5 = leBytes q.payload 2 5 :=
    leBytes_congr _ _ 5 2 (fun i _ hi => h i (by omega))
  have h2 : leBytes p.payload 7 5 = leBytes q.payload 7 5 :=
    leBytes_congr _ _ 5 7 (fun i _ hi => h i (by omega))
  have h3 : leBytes p.payload 12 5 = leBytes q.payload 12 5 :=
    leBytes_congr _ _ 5 12 (fun i _ hi => h i (by omega))
  simp only [copyReport, memcpyTime, h1, h2, h3]

/-- The part of the state that the claims on `rxcallback` speak of. -/
theorem rxcallback_report_fields (dev : dwDevice_t) (s : State)
    (hkind : dev.rxPacket.payload TYPE = REPORT) :
    (rxcallback dev s).curr_seq = s.curr_seq ∧
    (rxcallback dev s).poll_tx = s.poll_tx ∧
    (rxcallback dev s).answer_rx = s.answer_rx ∧
    (rxcallback dev s).final_tx = s.final_tx ∧
    ((isAcceptedReport dev s = true ∧
        (rxcallback dev s).poll_rx = (copyReport dev.rxPacket s).poll_rx ∧
        (rxcallback dev s).answer_tx = (copyReport dev.rxPacket s).answer_tx ∧
        (rxcallback dev s).final_rx = (copyReport dev.rxPacket s).final_rx ∧
        (rxcallback dev s).g_stats
          = updateStats s.g_stats (distance (copyReport dev.rxPacket s)) dev.receivePower) ∨
      (isAcceptedReport dev s = false ∧
        (rxcallback dev s).poll_rx = s.poll_rx ∧
        (rxcallback dev s).answer_tx = s.answer_tx ∧
        (rxcallback dev s).final_rx = s.final_rx ∧
        (rxcallback dev s).g_stats = s.g_stats)) := by
  have hk2 : REPORT ≠ ANSWER := by decide
  by_cases hlen : dev.dataLength = 0
  · simp [rxcallback, isAcceptedReport, hlen]
  · cases hdest : memcmp dev.rxPacket.destAddress s.config_address 8
    · by_cases hseq : dev.rxPacket.payload SEQ = s.curr_seq
      · have hacc : isAcceptedReport dev s = true :=
          (isAcceptedReport_iff dev s).mpr ⟨hlen, hdest, hkind, hseq⟩
        rw [rxcallback_report dev s hlen hdest hkind hseq]
        exact ⟨rfl, rfl, rfl, rfl, Or.inl ⟨hacc, rfl, rfl, rfl, rfl⟩⟩
      · have hacc : isAcceptedReport dev s = false := by
          simp [isAcceptedReport, hseq]
        refine ⟨?_, ?_, ?_, ?_, Or.inr ⟨hacc, ?_, ?_, ?_, ?_⟩⟩ <;>
          simp [rxcallback, hlen, hdest, hkind, hk2, hseq]
    · have hacc : isAcceptedReport dev s = false := by
        simp [isAcceptedReport, hdest]
      refine ⟨?_, ?_, ?_, ?_, Or.inr ⟨hacc, ?_, ?_, ?_, ?_⟩⟩ <;>
        simp [rxcallback, hlen, hdest]

theorem txcallback_g_stats (dev : dwDevice_t) (s : State) :
    (txcallback dev s).g_stats = s.g_stats := by
  unfold txcallback
  simp only []
  split_ifs <;> rfl

/-- A packet that is not an accepted REPORT leaves the statistics alone. -/
theorem rxcallback_g_stats_of_not_accepted (dev : dwDevice_t) (s : State)
    (h : isAcceptedReport dev s = false) : (rxcallback dev s).g_stats = s.g_stats := by
  by_cases hlen : dev.dataLength = 0
  · simp [rxcallback, hlen]
  · cases hdest : memcmp dev.rxPacket.destAddress s.config_address 8
    · by_cases hk : dev.rxPacket.payload TYPE = ANSWER
      · by_cases hseq : dev.rxPacket.payload SEQ = s.curr_seq <;>
          simp [rxcallback, hlen, hdest, hk, hseq]
      · by_cases hr : dev.rxPacket.payload TYPE = REPORT
        · have hseq : dev.rxPacket.payload SEQ ≠ s.curr_seq := by
            intro hseq
            have := (isAcceptedReport_iff dev s).mpr ⟨hlen, hdest, hr, hseq⟩
            rw [h] at this
            exact absurd this (by decide)
          have hk2 : REPORT ≠ ANSWER := by decide
          simp [rxcallback, hlen, hdest, hr, hk2, hseq]
        · simp [rxcallback, hlen, hdest, hk, hr]
    · simp [rxcallback, hlen, hdest]

theorem printStats_some (s : State) (r : StatsLine × State) (h : printStats s = some r) :
    r.2 = { s with g_stats := C_INIT_STATS } := by
  unfold printStats at h
  cases hl : lossValue s.g_stats with
  | none => rw [hl] at h; exact absurd h (by simp)
  | some loss =>
    rw [hl] at h
    simp only [Option.some.injEq] at h
    rw [← h]

/-- The two counters of `g_stats` are the two tallies modulo `2^32`. -/
theorem runSteps_counts (steps : List Step) :
    ∀ (s : State) (c : Nat × Nat) (s' : State),
      s.g_stats.interrogations = c.1 % 2 ^ 32 →
      s.g_stats.successful_interrogations = c.2 % 2 ^ 32 →
      runSteps steps s = some s' →
      s'.g_stats.interrogations = (tally steps s c).1 % 2 ^ 32 ∧
      s'.g_stats.successful_interrogations = (tally steps s c).2 % 2 ^ 32 := by
  induction steps with
  | nil =>
    intro s c s' h1 h2 hrun
    have e : s = s' := by simpa [runSteps] using hrun
    subst e
    exact ⟨h1, h2⟩
  | cons st steps ih =>
    intro s c s' h1 h2 hrun
    cases st with
    | print =>
      cases hp : printStats s with
      | none => simp [runSteps, hp] at hrun
      | some r =>
        have hr := printStats_some s r hp
        have hrun2 : runSteps steps { s with g_stats := C_INIT_STATS } = some s' := by
          simpa [runSteps, hp, hr] using hrun
        exact ih _ (0, 0) s' rfl rfl hrun2
    | event dev ev =>
      have hrun2 : runSteps steps (twrTagOnEvent dev ev s).2 = some s' := hrun
      show s'.g_stats.interrogations = (tally steps (twrTagOnEvent dev ev s).2 _).1 % 2 ^ 32 ∧
        s'.g_stats.successful_interrogations
          = (tally steps (twrTagOnEvent dev ev s).2 _).2 % 2 ^ 32
      apply ih _ _ s' _ _ hrun2
      · cases ev with
        | eventPacketReceived =>
          show (rxcallback dev s).g_stats.interrogations = c.1 % 2 ^ 32
          cases hacc : isAcceptedReport dev s
          · rw [rxcallback_g_stats_of_not_accepted dev s hacc]; exact h1
          · rw [accepted_report_stats dev s hacc]; exact h1
        | eventPacketSent =>
          show (txcallback dev s).g_stats.interrogations = c.1 % 2 ^ 32
          rw [txcallback_g_stats]; exact h1
        | eventTimeout =>
          show (s.g_stats.interrogations + 1) % 2 ^ 32 = (c.1 + 1) % 2 ^ 32
          rw [h1]; omega
        | eventReceiveFailed => exact h1
      · cases ev with
        | eventPacketReceived =>
          cases hacc : isAcceptedReport dev s
          · show (rxcallback dev s).g_stats.successful_interrogations = _
            rw [rxcallback_g_stats_of_not_accepted dev s hacc]
            simpa using h2
          · show (rxcallback dev s).g_stats.successful_interrogations = _
            rw [accepted_report_stats dev s hacc]
            show (s.g_stats.successful_interrogations + 1) % 2 ^ 32 = _
            simp only [true_and, if_true]
            rw [h2]; omega
        | eventPacketSent =>
          show (txcallback dev s).g_stats.successful_interrogations = _
          rw [txcallback_g_stats]
          simpa using h2
        | eventTimeout => simpa using h2
        | eventReceiveFailed => simpa using h2

theorem rxcallback_base_address (dev : dwDevice_t) (s : State) :
    (rxcallback dev s).base_address = s.base_address := by
  unfold rxcallback
  simp only []
  split_ifs <;> rfl

theorem txcallback_base_address (dev : dwDevice_t) (s : State) :
    (txcallback dev s).base_address = s.base_address := by
  unfold txcallback
  simp only []
  split_ifs <;> rfl

/-- No step writes `base_address[1]` to `base_address[7]`. -/
theorem runSteps_baseAddressIntact (steps : List Step) :
    ∀ (s s' : State), baseAddressIntact s = true → runSteps steps s = some s' →
      baseAddressIntact s' = true := by
  induction steps with
  | nil =>
    intro s s' h hrun
    have e : s = s' := by simpa [runSteps] using hrun
    subst e
    exact h
  | cons st steps ih =>
    intro s s' h hrun
    cases st with
    | print =>
      cases hp : printStats s with
      | none => simp [runSteps, hp] at hrun
      | some r =>
        have hr := printStats_some s r hp
        have hrun2 : runSteps steps { s with g_stats := C_INIT_STATS } = some s' := by
          simpa [runSteps, hp, hr] using hrun
        exact ih { s with g_stats := C_INIT_STATS } s' h hrun2
    | event dev ev =>
      have hrun2 : runSteps steps (twrTagOnEvent dev ev s).2 = some s' := hrun
      refine ih _ s' ?_ hrun2
      rw [baseAddressIntact_iff] at h ⊢
      intro i h1 h8
      cases ev with
      | eventPacketReceived =>
        show (rxcallback dev s).base_address i = _
        rw [rxcallback_base_address]; exact h i h1 h8
      | eventPacketSent =>
        show (txcallback dev s).base_address i = _
        rw [txcallback_base_address]; exact h i h1 h8
      | eventTimeout =>
        show Function.update s.base_address 0 1 i = _
        rw [Function.update_noteq (by omega)]; exact h i h1 h8
      | eventReceiveFailed => exact h i h1 h8

/-- In every state the tag can reach, `base_address[1]` to `base_address[7]`
hold what the initialiser put there. -/
theorem reachable_baseAddressIntact (steps : List Step) (address : Nat → Nat) (s' : State)
    (hrun : runSteps steps (initState address) = some s') : baseAddressIntact s' = true :=
  runSteps_baseAddressIntact steps _ s'
    ((baseAddressIntact_iff _).mpr (fun i h1 h8 => by
      show (if i = 6 then 0xcf else if i = 7 then 0xbc else 0)
        = (if i = 0 then 1 else if i = 6 then 0xcf else if i = 7 then 0xbc else 0)
      rw [if_neg (show ¬ i = 0 by omega)])) hrun

/-! ## Theorems -/

/-- C1: a packet addressed to this node whose kind is ANSWER or REPORT and
whose sequence byte differs from `curr_seq` leaves `curr_seq`, the six
timestamps and every field of `g_stats` as they were. -/
theorem rxcallback_wrong_seq_no_effect (dev : dwDevice_t) (s : State)
    (hdest : memcmp dev.rxPacket.destAddress s.config_address 8 = false)
    (hkind : dev.rxPacket.payload TYPE = ANSWER ∨ dev.rxPacket.payload TYPE = REPORT)
    (hseq : dev.rxPacket.payload SEQ ≠ s.curr_seq) :
    (rxcallback dev s).curr_seq = s.curr_seq ∧
    (rxcallback dev s).poll_tx = s.poll_tx ∧
    (rxcallback dev s).poll_rx = s.poll_rx ∧
    (rxcallback dev s).answer_tx = s.answer_tx ∧
    (rxcallback dev s).answer_rx = s.answer_rx ∧
    (rxcallback dev s).final_tx = s.final_tx ∧
    (rxcallback dev s).final_rx = s.final_rx ∧
    (rxcallback dev s).g_stats = s.g_stats := by
  by_cases hlen : dev.dataLength = 0
  · simp [rxcallback, hlen]
  · rcases hkind with hk | hk
    · simp [rxcallback, hlen, hdest, hk, hseq]
    · have hk2 : REPORT ≠ ANSWER := by decide
      simp [rxcallback, hlen, hdest, hk, hk2, hseq]

/-- C1, the scenario of the specification: an ANSWER with sequence number 2
while cycle 1 is active changes nothing. -/
theorem rxcallback_wrong_seq_no_effect_witness :
    (memcmp staleAnswer.rxPacket.destAddress firstCycle.config_address 8 = false ∧
      staleAnswer.rxPacket.payload SEQ ≠ firstCycle.curr_seq) ∧
    (rxcallback staleAnswer firstCycle).curr_seq = firstCycle.curr_seq ∧
    (rxcallback staleAnswer firstCycle).poll_tx = firstCycle.poll_tx ∧
    (rxcallback staleAnswer firstCycle).poll_rx = firstCycle.poll_rx ∧
    (rxcallback staleAnswer firstCycle).answer_tx = firstCycle.answer_tx ∧
    (rxcallback staleAnswer firstCycle).answer_rx = firstCycle.answer_rx ∧
    (rxcallback staleAnswer firstCycle).final_tx = firstCycle.final_tx ∧
    (rxcallback staleAnswer firstCycle).final_rx = firstCycle.final_rx ∧
    (rxcallback staleAnswer firstCycle).g_stats = firstCycle.g_stats :=
  ⟨⟨by decide, by decide⟩,
    rxcallback_wrong_seq_no_effect staleAnswer firstCycle (by decide) (Or.inl (by decide))
      (by decide)⟩

/-- C2: for a REPORT addressed to this node whose sequence byte is `curr_seq`,
with a non-zero sum of the four intervals, the sample fed into the statistics
is `C * ((tround1*tround2 - treply1*treply2) / (tround1+tround2+treply1+treply2))
/ tsfreq`, the intervals being the 32-bit differences of `answer_rx` and
`poll_tx`, of the report's `answerTx` and `pollRx`, of the report's `finalRx`
and `answerTx`, and of `final_tx` and `answer_rx`. -/
theorem rxcallback_distance_formula (dev : dwDevice_t) (s : State)
    (hlen : dev.dataLength ≠ 0)
    (hdest : memcmp dev.rxPacket.destAddress s.config_address 8 = false)
    (hkind : dev.rxPacket.payload TYPE = REPORT)
    (hseq : dev.rxPacket.payload SEQ = s.curr_seq)
    (hsum : sub32 (low32 s.answer_rx) (low32 s.poll_tx)
        + sub32 (low32 (answerTx dev.rxPacket)) (low32 (pollRx dev.rxPacket))
        + sub32 (low32 (finalRx dev.rxPacket)) (low32 (answerTx dev.rxPacket))
        + sub32 (low32 s.final_tx) (low32 s.answer_rx) ≠ 0) :
    (rxcallback dev s).g_stats =
      updateStats s.g_stats
        (Double.fin (specDistance
          (sub32 (low32 s.answer_rx) (low32 s.poll_tx))
          (sub32 (low32 (answerTx dev.rxPacket)) (low32 (pollRx dev.rxPacket)))
          (sub32 (low32 (finalRx dev.rxPacket)) (low32 (answerTx dev.rxPacket)))
          (sub32 (low32 s.final_tx) (low32 s.answer_rx))))
        dev.receivePower :=
  report_stats dev s hlen hdest hkind hseq hsum

/-- C2 at the exchange of the specification's scenario: intervals 200, 100,
150 and 50 ticks. -/
theorem rxcallback_distance_formula_witness :
    (goodReport.dataLength ≠ 0 ∧
      memcmp goodReport.rxPacket.destAddress midCycle.config_address 8 = false ∧
      goodReport.rxPacket.payload TYPE = REPORT ∧
      goodReport.rxPacket.payload SEQ = midCycle.curr_seq ∧
      sub32 (low32 midCycle.answer_rx) (low32 midCycle.poll_tx) = 200 ∧
      sub32 (low32 (answerTx goodReport.rxPacket)) (low32 (pollRx goodReport.rxPacket)) = 100 ∧
      sub32 (low32 (finalRx goodReport.rxPacket)) (low32 (answerTx goodReport.rxPacket)) = 150 ∧
      sub32 (low32 midCycle.final_tx) (low32 midCycle.answer_rx) = 50) ∧
    (rxcallback goodReport midCycle).g_stats =
      updateStats midCycle.g_stats
        (Double.fin (specDistance
          (sub32 (low32 midCycle.answer_rx) (low32 midCycle.poll_tx))
          (sub32 (low32 (answerTx goodReport.rxPacket)) (low32 (pollRx goodReport.rxPacket)))
          (sub32 (low32 (finalRx goodReport.rxPacket)) (low32 (answerTx goodReport.rxPacket)))
          (sub32 (low32 midCycle.final_tx) (low32 midCycle.answer_rx))))
        goodReport.receivePower :=
  ⟨⟨by decide, by decide, by decide, by decide, by decide, by decide, by decide, by decide⟩,
    rxcallback_distance_formula goodReport midCycle (by decide) (by decide) (by decide)
      (by decide) (by decide)⟩

/-- C3, the code at two equal samples: from the reset statistics, two
accepted REPORTs that each give the sample `d = C * 50 / tsfreq` with receive
power -80 leave `avg_distance = 2 * d` and `avg_rssi = -160`, not the
arithmetic means `d` and -80. -/
theorem avg_after_two_equal_samples :
    (rxcallback goodReport resetCycle).g_stats.avg_distance = Double.fin (C * 50 / tsfreq) ∧
    (rxcallback goodReport (rxcallback goodReport resetCycle)).g_stats.avg_distance
      = Double.fin (2 * (C * 50 / tsfreq)) ∧
    (rxcallback goodReport (rxcallback goodReport resetCycle)).g_stats.avg_rssi
      = Double.fin (-160) ∧
    Double.fin (2 * (C * 50 / tsfreq)) ≠ Double.fin ((C * 50 / tsfreq + C * 50 / tsfreq) / 2) ∧
    Double.fin (-160) ≠ Double.fin (((-80) + (-80)) / 2) := by
  have e1 : sub32 (low32 resetCycle.answer_rx) (low32 resetCycle.poll_tx) = 200 := by decide
  have e2 : sub32 (low32 (answerTx goodReport.rxPacket)) (low32 (pollRx goodReport.rxPacket))
      = 100 := by decide
  have e3 : sub32 (low32 (finalRx goodReport.rxPacket)) (low32 (answerTx goodReport.rxPacket))
      = 150 := by decide
  have e4 : sub32 (low32 resetCycle.final_tx) (low32 resetCycle.answer_rx) = 50 := by decide
  have f1 : sub32 (low32 (rxcallback goodReport resetCycle).answer_rx)
      (low32 (rxcallback goodReport resetCycle).poll_tx) = 200 := by decide
  have f4 : sub32 (low32 (rxcallback goodReport resetCycle).final_tx)
      (low32 (rxcallback goodReport resetCycle).answer_rx) = 50 := by decide
  have h1 := report_stats goodReport resetCycle (by decide) (by decide) (by decide) (by decide)
    (by decide)
  have h2 := report_stats goodReport (rxcallback goodReport resetCycle) (by decide) (by decide)
    (by decide) (by decide) (by decide)
  rw [f1, f4, h1] at h2
  rw [e1, e2, e3, e4] at h1 h2
  have hd : specDistance ((200 : ℕ) : ℚ) ((100 : ℕ) : ℚ) ((150 : ℕ) : ℚ) ((50 : ℕ) : ℚ)
      = C * 50 / tsfreq := by
    norm_num [specDistance]
  rw [hd] at h1 h2
  have hpos : (0 : ℚ) < C * 50 / tsfreq := by norm_num [C, tsfreq]
  refine ⟨?_, ?_, ?_, ?_, ?_⟩
  · rw [h1]; simp [updateStats, C_INIT_STATS, resetCycle]
  · rw [h2]
    simp [updateStats, C_INIT_STATS, resetCycle, Double.ofNat, Double.fin_add, Double.fin_div]
    ring
  · rw [h2]
    simp [updateStats, C_INIT_STATS, resetCycle, Double.ofNat, Double.fin_add, Double.fin_div,
      goodReport, received]
    norm_num
  · intro h
    injection h with h
    linarith
  · intro h
    injection h with h
    norm_num at h

/-- C4, the code at 10 interrogations of which 5 succeeded: the last
argument of the `printf` is 0, where `(10 - 5) / 10 * 100` is 50. -/
theorem printStats_loss_ten_five :
    lossValue halfLost.g_stats = some (Double.fin 0) ∧
    (printStats halfLost).map (fun r => r.1.rssi) = some (Double.fin 0) ∧
    ((10 : ℚ) - 5) / 10 * 100 = 50 := by
  have h : lossValue halfLost.g_stats = some (Double.fin 0) := by
    simp [lossValue, halfLost, C_INIT_STATS]
  refine ⟨h, ?_, by norm_num⟩
  simp [printStats, h]

/-- C5: after `initiateRanging` and any further events other than a timeout,
a packet of kind ANSWER or REPORT that carries the sequence number of the
cycle before is not accepted: `rxcallback` writes nothing into the payload of
`txPacket` and leaves the six timestamps and the statistics as they were. -/
theorem stale_reply_after_timeout (dev : dwDevice_t) (s : State)
    (evs : List (dwDevice_t × uwbEvent_t))
    (hevs : noTimeout evs = true)
    (hkind : dev.rxPacket.payload TYPE = ANSWER ∨ dev.rxPacket.payload TYPE = REPORT)
    (hseq : dev.rxPacket.payload SEQ = s.curr_seq) :
    (rxcallback dev (runEvents evs (initiateRanging s))).txPacket.payload
      = (runEvents evs (initiateRanging s)).txPacket.payload ∧
    (rxcallback dev (runEvents evs (initiateRanging s))).poll_tx
      = (runEvents evs (initiateRanging s)).poll_tx ∧
    (rxcallback dev (runEvents evs (initiateRanging s))).poll_rx
      = (runEvents evs (initiateRanging s)).poll_rx ∧
    (rxcallback dev (runEvents evs (initiateRanging s))).answer_tx
      = (runEvents evs (initiateRanging s)).answer_tx ∧
    (rxcallback dev (runEvents evs (initiateRanging s))).answer_rx
      = (runEvents evs (initiateRanging s)).answer_rx ∧
    (rxcallback dev (runEvents evs (initiateRanging s))).final_tx
      = (runEvents evs (initiateRanging s)).final_tx ∧
    (rxcallback dev (runEvents evs (initiateRanging s))).final_rx
      = (runEvents evs (initiateRanging s)).final_rx ∧
    (rxcallback dev (runEvents evs (initiateRanging s))).g_stats
      = (runEvents evs (initiateRanging s)).g_stats := by
  have hne : dev.rxPacket.payload SEQ ≠ (runEvents evs (initiateRanging s)).curr_seq := by
    rw [runEvents_curr_seq evs _ hevs, hseq]
    show s.curr_seq ≠ (s.curr_seq + 1) % 256
    omega
  obtain ⟨h0, _, h1, h2, h3, h4, h5, h6, h7⟩ :=
    rxcallback_of_seq_ne dev (runEvents evs (initiateRanging s)) hkind hne
  exact ⟨h0, h1, h2, h3, h4, h5, h6, h7⟩

/-- C5 at the first cycle: an ANSWER with sequence number 1 that arrives
after the second timeout and the transmission of the second POLL. -/
theorem stale_reply_after_timeout_witness :
    (noTimeout [(timedAnswer, uwbEvent_t.eventPacketSent)] = true ∧
      lateAnswer.rxPacket.payload TYPE = ANSWER ∧
      lateAnswer.rxPacket.payload SEQ = firstCycle.curr_seq) ∧
    (rxcallback lateAnswer (runEvents [(timedAnswer, uwbEvent_t.eventPacketSent)]
        (initiateRanging firstCycle))).txPacket.payload
      = (runEvents [(timedAnswer, uwbEvent_t.eventPacketSent)]
        (initiateRanging firstCycle)).txPacket.payload ∧
    (rxcallback lateAnswer (runEvents [(timedAnswer, uwbEvent_t.eventPacketSent)]
        (initiateRanging firstCycle))).poll_tx
      = (runEvents [(timedAnswer, uwbEvent_t.eventPacketSent)]
        (initiateRanging firstCycle)).poll_tx ∧
    (rxcallback lateAnswer (runEvents [(timedAnswer, uwbEvent_t.eventPacketSent)]
        (initiateRanging firstCycle))).poll_rx
      = (runEvents [(timedAnswer, uwbEvent_t.eventPacketSent)]
        (initiateRanging firstCycle)).poll_rx ∧
    (rxcallback lateAnswer (runEvents [(timedAnswer, uwbEvent_t.eventPacketSent)]
        (initiateRanging firstCycle))).answer_tx
      = (runEvents [(timedAnswer, uwbEvent_t.eventPacketSent)]
        (initiateRanging firstCycle)).answer_tx ∧
    (rxcallback lateAnswer (runEvents [(timedAnswer, uwbEvent_t.eventPacketSent)]
        (initiateRanging firstCycle))).answer_rx
      = (runEvents [(timedAnswer, uwbEvent_t.eventPacketSent)]
        (initiateRanging firstCycle)).answer_rx ∧
    (rxcallback lateAnswer (runEvents [(timedAnswer, uwbEvent_t.eventPacketSent)]
        (initiateRanging firstCycle))).final_tx
      = (runEvents [(timedAnswer, uwbEvent_t.eventPacketSent)]
        (initiateRanging firstCycle)).final_tx ∧
    (rxcallback lateAnswer (runEvents [(timedAnswer, uwbEvent_t.eventPacketSent)]
        (initiateRanging firstCycle))).final_rx
      = (runEvents [(timedAnswer, uwbEvent_t.eventPacketSent)]
        (initiateRanging firstCycle)).final_rx ∧
    (rxcallback lateAnswer (runEvents [(timedAnswer, uwbEvent_t.eventPacketSent)]
        (initiateRanging firstCycle))).g_stats
      = (runEvents [(timedAnswer, uwbEvent_t.eventPacketSent)]
        (initiateRanging firstCycle)).g_stats :=
  ⟨⟨by decide, by decide, by decide⟩,
    stale_reply_after_timeout lateAnswer firstCycle [(timedAnswer, uwbEvent_t.eventPacketSent)]
      (by decide) (Or.inl (by decide)) (by decide)⟩

/-- C6: for an accepted REPORT with `tround1 = tround2 = R` and
`treply1 = treply2 = P`, `R + P` not zero, the sample fed into the statistics
is `C * (R - P) / (2 * tsfreq)`. -/
theorem symmetric_exchange_distance (dev : dwDevice_t) (s : State) (R P : ℕ)
    (hlen : dev.dataLength ≠ 0)
    (hdest : memcmp dev.rxPacket.destAddress s.config_address 8 = false)
    (hkind : dev.rxPacket.payload TYPE = REPORT)
    (hseq : dev.rxPacket.payload SEQ = s.curr_seq)
    (hr1 : sub32 (low32 s.answer_rx) (low32 s.poll_tx) = R)
    (hp1 : sub32 (low32 (answerTx dev.rxPacket)) (low32 (pollRx dev.rxPacket)) = P)
    (hr2 : sub32 (low32 (finalRx dev.rxPacket)) (low32 (answerTx dev.rxPacket)) = R)
    (hp2 : sub32 (low32 s.final_tx) (low32 s.answer_rx) = P)
    (hne : R + P ≠ 0) :
    (rxcallback dev s).g_stats =
      updateStats s.g_stats (Double.fin (C * ((R : ℚ) - P) / (2 * tsfreq))) dev.receivePower := by
  have hsum : sub32 (low32 s.answer_rx) (low32 s.poll_tx)
        + sub32 (low32 (answerTx dev.rxPacket)) (low32 (pollRx dev.rxPacket))
        + sub32 (low32 (finalRx dev.rxPacket)) (low32 (answerTx dev.rxPacket))
        + sub32 (low32 s.final_tx) (low32 s.answer_rx) ≠ 0 := by
    rw [hr1, hp1, hr2, hp2]
    omega
  rw [report_stats dev s hlen hdest hkind hseq hsum, hr1, hp1, hr2, hp2]
  have hq : ((R : ℚ) + P) ≠ 0 := by
    intro h
    apply hne
    exact_mod_cast h
  have ht : tsfreq ≠ 0 := ne_of_gt tsfreq_pos
  have h2 : ((R : ℚ) + R + P + P) ≠ 0 := by
    intro h
    apply hq
    linarith
  congr 2
  simp only [specDistance]
  field_simp
  ring

/-- C6 at an exchange with `R = 200` and `P = 100`. -/
theorem symmetric_exchange_distance_witness :
    (symReport.dataLength ≠ 0 ∧
      memcmp symReport.rxPacket.destAddress symCycle.config_address 8 = false ∧
      symReport.rxPacket.payload TYPE = REPORT ∧
      symReport.rxPacket.payload SEQ = symCycle.curr_seq ∧
      sub32 (low32 symCycle.answer_rx) (low32 symCycle.poll_tx) = 200 ∧
      sub32 (low32 (answerTx symReport.rxPacket)) (low32 (pollRx symReport.rxPacket)) = 100 ∧
      sub32 (low32 (finalRx symReport.rxPacket)) (low32 (answerTx symReport.rxPacket)) = 200 ∧
      sub32 (low32 symCycle.final_tx) (low32 symCycle.answer_rx) = 100 ∧
      200 + 100 ≠ 0) ∧
    (rxcallback symReport symCycle).g_stats =
      updateStats symCycle.g_stats (Double.fin (C * (((200 : ℕ) : ℚ) - (100 : ℕ)) / (2 * tsfreq)))
        symReport.receivePower :=
  ⟨⟨by decide, by decide, by decide, by decide, by decide, by decide, by decide, by decide,
      by decide⟩,
    symmetric_exchange_distance symReport symCycle 200 100 (by decide) (by decide) (by decide)
      (by decide) (by decide) (by decide) (by decide) (by decide) (by decide)⟩

/-- C7, as stated, fails when the success counter is at its largest value:
an accepted REPORT with `tround1 > treply1` and `tround2 > treply2` takes
`successful_interrogations` from 4294967295 to 0. -/
theorem success_count_wraps :
    (goodReport.dataLength ≠ 0 ∧
      memcmp goodReport.rxPacket.destAddress fullCount.config_address 8 = false ∧
      goodReport.rxPacket.payload TYPE = REPORT ∧
      goodReport.rxPacket.payload SEQ = fullCount.curr_seq ∧
      sub32 (low32 (answerTx goodReport.rxPacket)) (low32 (pollRx goodReport.rxPacket))
        < sub32 (low32 fullCount.answer_rx) (low32 fullCount.poll_tx) ∧
      sub32 (low32 fullCount.final_tx) (low32 fullCount.answer_rx)
        < sub32 (low32 (finalRx goodReport.rxPacket)) (low32 (answerTx goodReport.rxPacket))) ∧
    fullCount.g_stats.successful_interrogations = 4294967295 ∧
    (rxcallback goodReport fullCount).g_stats.successful_interrogations = 0 ∧
    (rxcallback goodReport fullCount).g_stats.successful_interrogations
      ≠ fullCount.g_stats.successful_interrogations + 1 := by
  refine ⟨⟨by decide, by decide, by decide, by decide, by decide, by decide⟩, by decide,
    by decide, by decide⟩

/-- C7, amended: for an accepted REPORT whose intervals satisfy
`tround1 > treply1` and `tround2 > treply2`, the sample fed into the
statistics is a number, strictly positive; `successful_interrogations`
becomes the old value plus 1 modulo `2^32`, which is the old value plus 1
unless the old value was `2^32 - 1`; `interrogations` is unchanged. -/
theorem complete_exchange_succeeds (dev : dwDevice_t) (s : State)
    (hlen : dev.dataLength ≠ 0)
    (hdest : memcmp dev.rxPacket.destAddress s.config_address 8 = false)
    (hkind : dev.rxPacket.payload TYPE = REPORT)
    (hseq : dev.rxPacket.payload SEQ = s.curr_seq)
    (h1 : sub32 (low32 (answerTx dev.rxPacket)) (low32 (pollRx dev.rxPacket))
      < sub32 (low32 s.answer_rx) (low32 s.poll_tx))
    (h2 : sub32 (low32 s.final_tx) (low32 s.answer_rx)
      < sub32 (low32 (finalRx dev.rxPacket)) (low32 (answerTx dev.rxPacket))) :
    0 < specDistance
          (sub32 (low32 s.answer_rx) (low32 s.poll_tx))
          (sub32 (low32 (answerTx dev.rxPacket)) (low32 (pollRx dev.rxPacket)))
          (sub32 (low32 (finalRx dev.rxPacket)) (low32 (answerTx dev.rxPacket)))
          (sub32 (low32 s.final_tx) (low32 s.answer_rx)) ∧
    (rxcallback dev s).g_stats =
      updateStats s.g_stats
        (Double.fin (specDistance
          (sub32 (low32 s.answer_rx) (low32 s.poll_tx))
          (sub32 (low32 (answerTx dev.rxPacket)) (low32 (pollRx dev.rxPacket)))
          (sub32 (low32 (finalRx dev.rxPacket)) (low32 (answerTx dev.rxPacket)))
          (sub32 (low32 s.final_tx) (low32 s.answer_rx))))
        dev.receivePower ∧
    (rxcallback dev s).g_stats.successful_interrogations
      = (s.g_stats.successful_interrogations + 1) % 2 ^ 32 ∧
    (s.g_stats.successful_interrogations + 1 < 2 ^ 32 →
      (rxcallback dev s).g_stats.successful_interrogations
        = s.g_stats.successful_interrogations + 1) ∧
    (rxcallback dev s).g_stats.interrogations = s.g_stats.interrogations := by
  have hsum : sub32 (low32 s.answer_rx) (low32 s.poll_tx)
        + sub32 (low32 (answerTx dev.rxPacket)) (low32 (pollRx dev.rxPacket))
        + sub32 (low32 (finalRx dev.rxPacket)) (low32 (answerTx dev.rxPacket))
        + sub32 (low32 s.final_tx) (low32 s.answer_rx) ≠ 0 := by omega
  have hst := report_stats dev s hlen hdest hkind hseq hsum
  generalize sub32 (low32 s.answer_rx) (low32 s.poll_tx) = r1 at h1 h2 hst ⊢
  generalize sub32 (low32 (answerTx dev.rxPacket)) (low32 (pollRx dev.rxPacket)) = p1
    at h1 h2 hst ⊢
  generalize sub32 (low32 (finalRx dev.rxPacket)) (low32 (answerTx dev.rxPacket)) = r2
    at h1 h2 hst ⊢
  generalize sub32 (low32 s.final_tx) (low32 s.answer_rx) = p2 at h1 h2 hst ⊢
  have q1 : (p1 : ℚ) < r1 := by exact_mod_cast h1
  have q2 : (p2 : ℚ) < r2 := by exact_mod_cast h2
  have n1 : (0 : ℚ) ≤ p1 := Nat.cast_nonneg p1
  have n2 : (0 : ℚ) ≤ p2 := Nat.cast_nonneg p2
  have hnum : (0 : ℚ) < (r1 : ℚ) * r2 - p1 * p2 := by nlinarith
  have hden : (0 : ℚ) < (r1 : ℚ) + r2 + p1 + p2 := by linarith
  refine ⟨?_, hst, ?_, ?_, ?_⟩
  · unfold specDistance
    exact div_pos (mul_pos C_pos (div_pos hnum hden)) tsfreq_pos
  · rw [hst]; rfl
  · intro hlt
    rw [hst]
    exact Nat.mod_eq_of_lt hlt
  · rw [hst]; rfl

/-- C7 at the scenario of the specification: after one timeout, with the POLL
sent at 1000, the ANSWER received at 1200, the FINAL sent at 1250 and a
REPORT carrying 1050, 1150 and 1300, the propagation time is 50 ticks, the
distance is positive and one interrogation has succeeded. -/
theorem complete_exchange_succeeds_witness :
    (goodReport.dataLength ≠ 0 ∧
      memcmp goodReport.rxPacket.destAddress midCycle.config_address 8 = false ∧
      goodReport.rxPacket.payload TYPE = REPORT ∧
      goodReport.rxPacket.payload SEQ = midCycle.curr_seq ∧
      midCycle.curr_seq = 1 ∧
      sub32 (low32 midCycle.answer_rx) (low32 midCycle.poll_tx) = 200 ∧
      sub32 (low32 (answerTx goodReport.rxPacket)) (low32 (pollRx goodReport.rxPacket)) = 100 ∧
      sub32 (low32 (finalRx goodReport.rxPacket)) (low32 (answerTx goodReport.rxPacket)) = 150 ∧
      sub32 (low32 midCycle.final_tx) (low32 midCycle.answer_rx) = 50 ∧
      specDistance 200 100 150 50 = C * 50 / tsfreq) ∧
    (rxcallback goodReport midCycle).g_stats.successful_interrogations = 1 ∧
    0 < specDistance
          (sub32 (low32 midCycle.answer_rx) (low32 midCycle.poll_tx))
          (sub32 (low32 (answerTx goodReport.rxPacket)) (low32 (pollRx goodReport.rxPacket)))
          (sub32 (low32 (finalRx goodReport.rxPacket)) (low32 (answerTx goodReport.rxPacket)))
          (sub32 (low32 midCycle.final_tx) (low32 midCycle.answer_rx)) ∧
    (rxcallback goodReport midCycle).g_stats =
      updateStats midCycle.g_stats
        (Double.fin (specDistance
          (sub32 (low32 midCycle.answer_rx) (low32 midCycle.poll_tx))
          (sub32 (low32 (answerTx goodReport.rxPacket)) (low32 (pollRx goodReport.rxPacket)))
          (sub32 (low32 (finalRx goodReport.rxPacket)) (low32 (answerTx goodReport.rxPacket)))
          (sub32 (low32 midCycle.final_tx) (low32 midCycle.answer_rx))))
        goodReport.receivePower ∧
    (rxcallback goodReport midCycle).g_stats.successful_interrogations
      = (midCycle.g_stats.successful_interrogations + 1) % 2 ^ 32 ∧
    (midCycle.g_stats.successful_interrogations + 1 < 2 ^ 32 →
      (rxcallback goodReport midCycle).g_stats.successful_interrogations
        = midCycle.g_stats.successful_interrogations + 1) ∧
    (rxcallback goodReport midCycle).g_stats.interrogations = midCycle.g_stats.interrogations :=
  ⟨⟨by decide, by decide, by decide, by decide, by decide, by decide, by decide, by decide,
      by decide, by norm_num [specDistance]⟩,
    by decide,
    complete_exchange_succeeds goodReport midCycle (by decide) (by decide) (by decide)
      (by decide) (by decide) (by decide)⟩

/-- C8, as stated, fails at `n = 2^32`: after that many timeouts the
32-bit counter `interrogations` is 0 again and `printStats` divides by zero. -/
theorem timeouts_wrap :
    (timeouts noPacket 4294967296 (initState tagAddress)).g_stats.interrogations = 0 ∧
    (timeouts noPacket 4294967296 (initState tagAddress)).g_stats.interrogations ≠ 4294967296 ∧
    printStats (timeouts noPacket 4294967296 (initState tagAddress)) = none := by
  have h := timeouts_stats noPacket 4294967296 (initState tagAddress) (by decide)
  have h0 : (timeouts noPacket 4294967296 (initState tagAddress)).g_stats.interrogations = 0 := by
    rw [h]
    rfl
  exact ⟨h0, fun h1 => absurd (h0.symm.trans h1) (by decide), printStats_zero_interrogations _ h0⟩

/-- C8, amended: for every `n` with `1 <= n < 2^32`, after `n` timeouts in a
row from the initial state, `interrogations` is `n`,
`successful_interrogations` is 0, and the loss value `printStats` computes
and prints is 100. -/
theorem all_timeouts_run (dev : dwDevice_t) (address : Nat → Nat) (n : ℕ)
    (h1 : 1 ≤ n) (h2 : n < 2 ^ 32) :
    (timeouts dev n (initState address)).g_stats.interrogations = n ∧
    (timeouts dev n (initState address)).g_stats.successful_interrogations = 0 ∧
    lossValue (timeouts dev n (initState address)).g_stats = some (Double.fin 100) ∧
    (printStats (timeouts dev n (initState address))).map (fun r => r.1.rssi)
      = some (Double.fin 100) := by
  have h := timeouts_stats dev n (initState address) (by show 0 < 2 ^ 32; norm_num)
  have hi : (timeouts dev n (initState address)).g_stats.interrogations = n := by
    rw [h]
    show (0 + n) % 2 ^ 32 = n
    rw [Nat.zero_add, Nat.mod_eq_of_lt h2]
  have hs : (timeouts dev n (initState address)).g_stats.successful_interrogations = 0 := by
    rw [h]
    rfl
  have hn : n ≠ 0 := by omega
  have hl : lossValue (timeouts dev n (initState address)).g_stats = some (Double.fin 100) := by
    unfold lossValue
    rw [hi, hs, if_neg hn]
    have e : (n + 2 ^ 32 - 0) % 2 ^ 32 / n = 1 := by
      rw [Nat.sub_zero, Nat.add_mod_right, Nat.mod_eq_of_lt h2]
      exact Nat.div_self (by omega)
    rw [e]
    norm_num
  refine ⟨hi, hs, hl, ?_⟩
  simp [printStats, hl]

/-- C8 at the ten timeouts of the specification's scenario. -/
theorem all_timeouts_run_witness :
    (1 ≤ 10 ∧ 10 < 2 ^ 32) ∧
    (timeouts noPacket 10 (initState tagAddress)).g_stats.interrogations = 10 ∧
    (timeouts noPacket 10 (initState tagAddress)).g_stats.successful_interrogations = 0 ∧
    lossValue (timeouts noPacket 10 (initState tagAddress)).g_stats = some (Double.fin 100) ∧
    (printStats (timeouts noPacket 10 (initState tagAddress))).map (fun r => r.1.rssi)
      = some (Double.fin 100) :=
  ⟨⟨by decide, by decide⟩, all_timeouts_run noPacket tagAddress 10 (by decide) (by decide)⟩

/-- C10, as stated, fails: with the POLL leaving at 100000 and the ANSWER
arriving at 200000, `txcallback` stores 100000 + 16475 and `rxcallback` stores
200000 - 16476; the two sides differ, and the difference of the stored values
is the raw difference less 32951, which is not `ANTENNA_DELAY`. -/
theorem antenna_delay_not_exact :
    ((txcallback timedAnswer firstCycle).poll_tx : ℚ) - 100000 = 16475 ∧
    200000 - ((rxcallback timedAnswer firstCycle).answer_rx : ℚ) = 16476 ∧
    ((txcallback timedAnswer firstCycle).poll_tx : ℚ) - 100000 ≠ ANTENNA_DELAY / 2 ∧
    200000 - ((rxcallback timedAnswer firstCycle).answer_rx : ℚ) ≠ ANTENNA_DELAY / 2 ∧
    |(((rxcallback timedAnswer firstCycle).answer_rx : ℚ)
        - (txcallback timedAnswer firstCycle).poll_tx) - (200000 - 100000)| = 32951 ∧
    (32951 : ℚ) ≠ ANTENNA_DELAY := by
  obtain ⟨hlo, hhi⟩ := half_delay_bounds
  have ht : (txcallback timedAnswer firstCycle).poll_tx = 116475 := by
    rw [txcallback_poll_tx timedAnswer firstCycle (by decide)]
    exact addHalfDelay_eq 100000 (by decide)
  have hr : (rxcallback timedAnswer firstCycle).answer_rx = 183524 := by
    rw [rxcallback_answer_rx timedAnswer firstCycle (by decide) (by decide) (by decide)
      (by decide)]
    exact subHalfDelay_eq 200000 (by decide) (by decide)
  rw [ht, hr]
  refine ⟨by norm_num, by norm_num, ?_, ?_, ?_, ?_⟩
  · intro h; norm_num at h; linarith
  · intro h; norm_num at h; linarith
  · norm_num [abs_of_neg]
  · intro h; linarith [delay_bounds.1]

/-- C10, amended: for a 40-bit transmit timestamp `t` and a 40-bit receive
timestamp `r` of at least 16476, `txcallback` stores `t + 16475` (half the
delay, rounded down to a whole tick) and `rxcallback` stores `r - 16476`
(half the delay, rounded up), so that the stored receive time less the stored
transmit time is the raw difference `r - t` less 32951 ticks, which is
`ANTENNA_DELAY` rounded down. -/
theorem antenna_delay_compensation (dev : dwDevice_t) (s : State)
    (hpoll : s.txPacket.payload 0 = POLL)
    (hlen : dev.dataLength ≠ 0)
    (hdest : memcmp dev.rxPacket.destAddress s.config_address 8 = false)
    (hkind : dev.rxPacket.payload TYPE = ANSWER)
    (hseq : dev.rxPacket.payload SEQ = s.curr_seq)
    (ht : dev.transmitTimestamp < 2 ^ 40)
    (hr : 16476 ≤ dev.receiveTimestamp)
    (hr2 : dev.receiveTimestamp < 2 ^ 40) :
    (txcallback dev s).poll_tx = dev.transmitTimestamp + 16475 ∧
    (rxcallback dev s).answer_rx = dev.receiveTimestamp - 16476 ∧
    ((rxcallback dev s).answer_rx : ℤ) - (txcallback dev s).poll_tx
      = ((dev.receiveTimestamp : ℤ) - dev.transmitTimestamp) - 32951 ∧
    ⌊ANTENNA_DELAY / 2⌋ = 16475 ∧ ⌈ANTENNA_DELAY / 2⌉ = 16476 ∧ ⌊ANTENNA_DELAY⌋ = 32951 := by
  obtain ⟨hlo, hhi⟩ := half_delay_bounds
  have h1 : (txcallback dev s).poll_tx = dev.transmitTimestamp + 16475 := by
    rw [txcallback_poll_tx dev s hpoll]
    exact addHalfDelay_eq _ ht
  have h2 : (rxcallback dev s).answer_rx = dev.receiveTimestamp - 16476 := by
    rw [rxcallback_answer_rx dev s hlen hdest hkind hseq]
    exact subHalfDelay_eq _ hr hr2
  refine ⟨h1, h2, ?_, ?_, ?_, ?_⟩
  · rw [h1, h2]
    omega
  · rw [Int.floor_eq_iff]
    constructor <;> norm_num <;> linarith
  · rw [Int.ceil_eq_iff]
    constructor <;> norm_num <;> linarith
  · rw [Int.floor_eq_iff]
    constructor <;> norm_num <;> linarith [delay_bounds.1, delay_bounds.2]

/-- C10 at a POLL leaving at 100000 and an ANSWER arriving at 200000. -/
theorem antenna_delay_compensation_witness :
    (firstCycle.txPacket.payload 0 = POLL ∧
      timedAnswer.dataLength ≠ 0 ∧
      memcmp timedAnswer.rxPacket.destAddress firstCycle.config_address 8 = false ∧
      timedAnswer.rxPacket.payload TYPE = ANSWER ∧
      timedAnswer.rxPacket.payload SEQ = firstCycle.curr_seq ∧
      timedAnswer.transmitTimestamp < 2 ^ 40 ∧
      16476 ≤ timedAnswer.receiveTimestamp ∧
      timedAnswer.receiveTimestamp < 2 ^ 40) ∧
    (txcallback timedAnswer firstCycle).poll_tx = timedAnswer.transmitTimestamp + 16475 ∧
    (rxcallback timedAnswer firstCycle).answer_rx = timedAnswer.receiveTimestamp - 16476 ∧
    ((rxcallback timedAnswer firstCycle).answer_rx : ℤ) - (txcallback timedAnswer firstCycle).poll_tx
      = ((timedAnswer.receiveTimestamp : ℤ) - timedAnswer.transmitTimestamp) - 32951 ∧
    ⌊ANTENNA_DELAY / 2⌋ = 16475 ∧ ⌈ANTENNA_DELAY / 2⌉ = 16476 ∧ ⌊ANTENNA_DELAY⌋ = 32951 :=
  ⟨⟨by decide, by decide, by decide, by decide, by decide, by decide, by decide, by decide⟩,
    antenna_delay_compensation timedAnswer firstCycle (by decide) (by decide) (by decide)
      (by decide) (by decide) (by decide) (by decide) (by decide)⟩

/-- C9, as stated, fails for a sample that is not a number: after a reset,
an accepted REPORT whose four intervals are all zero is recorded
(`successful_interrogations` becomes 1) with the sample NaN, and neither
`min_distance <= NaN` nor `NaN <= max_distance` holds. -/
theorem min_max_bounds_nan :
    (zeroCycle.g_stats = C_INIT_STATS ∧ allAccepted [zeroReport] zeroCycle = true) ∧
    samples [zeroReport] zeroCycle = [Double.nan] ∧
    (feedReports [zeroReport] zeroCycle).g_stats.successful_interrogations = 1 ∧
    (feedReports [zeroReport] zeroCycle).g_stats.min_distance = DBL_MAX ∧
    (feedReports [zeroReport] zeroCycle).g_stats.max_distance = DBL_MIN ∧
    ¬ ((feedReports [zeroReport] zeroCycle).g_stats.min_distance ≤ Double.nan) ∧
    ¬ (Double.nan ≤ (feedReports [zeroReport] zeroCycle).g_stats.max_distance) := by
  have hd : distance (copyReport zeroReport.rxPacket zeroCycle) = Double.nan :=
    distance_of_zero_intervals _ (by decide) (by decide) (by decide) (by decide)
  have hst : (feedReports [zeroReport] zeroCycle).g_stats
      = updateStats C_INIT_STATS Double.nan zeroReport.receivePower := by
    show (rxcallback zeroReport zeroCycle).g_stats = _
    rw [accepted_report_stats zeroReport zeroCycle (by decide), hd]
    rfl
  have hmin : (feedReports [zeroReport] zeroCycle).g_stats.min_distance = DBL_MAX := by
    rw [hst]; rfl
  have hmax : (feedReports [zeroReport] zeroCycle).g_stats.max_distance = DBL_MIN := by
    rw [hst]; rfl
  refine ⟨⟨rfl, by decide⟩, ?_, ?_, hmin, hmax, ?_, ?_⟩
  · show [distance (copyReport zeroReport.rxPacket zeroCycle)] = [Double.nan]
    rw [hd]
  · rw [hst]; rfl
  · rw [hmin]
    exact fun h => h
  · exact fun h => h

/-- C9, amended: starting from the reset statistics, after any sequence of
accepted REPORTs, every recorded distance sample that is a number (not a NaN)
lies between `min_distance` and `max_distance`. -/
theorem min_max_bounds (devs : List dwDevice_t) (s : State) (d : Double)
    (hinit : s.g_stats = C_INIT_STATS)
    (hacc : allAccepted devs s = true)
    (hd : d ∈ samples devs s)
    (hnum : d ≠ Double.nan) :
    (feedReports devs s).g_stats.min_distance ≤ d ∧
    d ≤ (feedReports devs s).g_stats.max_distance := by
  have hmin : s.g_stats.min_distance ≠ Double.nan := by
    rw [hinit]; exact Double.noConfusion
  have hmax : s.g_stats.max_distance ≠ Double.nan := by
    rw [hinit]; exact Double.noConfusion
  exact (feed_bounds devs s hacc hmin hmax).2 d hd hnum

/-- C9 at two REPORTs after a reset, for the sample of the first. -/
theorem min_max_bounds_witness :
    (resetCycle.g_stats = C_INIT_STATS ∧
      allAccepted [goodReport, symReport] resetCycle = true ∧
      distance (copyReport goodReport.rxPacket resetCycle)
        ∈ samples [goodReport, symReport] resetCycle ∧
      distance (copyReport goodReport.rxPacket resetCycle) = Double.fin (C * 50 / tsfreq) ∧
      distance (copyReport goodReport.rxPacket resetCycle) ≠ Double.nan) ∧
    (feedReports [goodReport, symReport] resetCycle).g_stats.min_distance
      ≤ distance (copyReport goodReport.rxPacket resetCycle) ∧
    distance (copyReport goodReport.rxPacket resetCycle)
      ≤ (feedReports [goodReport, symReport] resetCycle).g_stats.max_distance := by
  have e1 : tround1 (copyReport goodReport.rxPacket resetCycle) = 200 := by decide
  have e2 : treply1 (copyReport goodReport.rxPacket resetCycle) = 100 := by decide
  have e3 : tround2 (copyReport goodReport.rxPacket resetCycle) = 150 := by decide
  have e4 : treply2 (copyReport goodReport.rxPacket resetCycle) = 50 := by decide
  have hv : distance (copyReport goodReport.rxPacket resetCycle) = Double.fin (C * 50 / tsfreq) := by
    rw [distance_of_sum_ne_zero _ (by rw [e1, e2, e3, e4]; norm_num), e1, e2, e3, e4]
    congr 1
    norm_num
    ring
  have hmem : distance (copyReport goodReport.rxPacket resetCycle)
      ∈ samples [goodReport, symReport] resetCycle := List.mem_cons_self _ _
  have hnum : distance (copyReport goodReport.rxPacket resetCycle) ≠ Double.nan := by
    rw [hv]; exact Double.noConfusion
  exact ⟨⟨rfl, by decide, hmem, hv, hnum⟩,
    min_max_bounds [goodReport, symReport] resetCycle _ rfl (by decide) hmem hnum⟩

/-- C11, as stated, fails when the attempt counter is at its largest value:
`initiateRanging` takes `interrogations` from 4294967295 to 0. -/
theorem interrogation_count_wraps :
    fullCount.g_stats.interrogations = 4294967295 ∧
    (initiateRanging fullCount).g_stats.interrogations = 0 ∧
    (twrTagOnEvent noPacket uwbEvent_t.eventTimeout fullCount).2.g_stats.interrogations
      ≠ fullCount.g_stats.interrogations + 1 := by
  refine ⟨by decide, by decide, by decide⟩

/-- C11, amended: in a state whose `base_address[1]` to `base_address[7]`
hold their initial values (every state the tag can reach,
`reachable_baseAddressIntact`), a timeout runs `initiateRanging`, which sets `curr_seq` to
the old value plus 1 modulo 256, `txPacket.payload[0]` to POLL,
`txPacket.payload[1]` to the new `curr_seq`, the source address of `txPacket`
to `config.address` and its destination address to
`{1,0,0,0,0,0,0xcf,0xbc}`; `interrogations` becomes the old value plus 1
modulo `2^32`, which is the old value plus 1 unless the old value was
`2^32 - 1`; the other statistics fields are unchanged. -/
theorem timeout_starts_cycle (dev : dwDevice_t) (s : State)
    (hbase : baseAddressIntact s = true) :
    (twrTagOnEvent dev uwbEvent_t.eventTimeout s).2 = initiateRanging s ∧
    (initiateRanging s).curr_seq = (s.curr_seq + 1) % 256 ∧
    (initiateRanging s).txPacket.payload 0 = 0x01 ∧
    (initiateRanging s).txPacket.payload 1 = (initiateRanging s).curr_seq ∧
    (List.range 8).map (initiateRanging s).txPacket.sourceAddress
      = (List.range 8).map s.config_address ∧
    (List.range 8).map (initiateRanging s).txPacket.destAddress
      = [1, 0, 0, 0, 0, 0, 0xcf, 0xbc] ∧
    (initiateRanging s).g_stats.interrogations = (s.g_stats.interrogations + 1) % 2 ^ 32 ∧
    (s.g_stats.interrogations + 1 < 2 ^ 32 →
      (initiateRanging s).g_stats.interrogations = s.g_stats.interrogations + 1) ∧
    (initiateRanging s).g_stats.successful_interrogations
      = s.g_stats.successful_interrogations ∧
    (initiateRanging s).g_stats.min_distance = s.g_stats.min_distance ∧
    (initiateRanging s).g_stats.max_distance = s.g_stats.max_distance ∧
    (initiateRanging s).g_stats.avg_distance = s.g_stats.avg_distance ∧
    (initiateRanging s).g_stats.avg_rssi = s.g_stats.avg_rssi := by
  have hb := (baseAddressIntact_iff s).mp hbase
  refine ⟨rfl, rfl, ?_, ?_, ?_, ?_, rfl, ?_, rfl, rfl, rfl, rfl, rfl⟩
  · simp [initiateRanging, TYPE, SEQ, POLL]
  · simp [initiateRanging, TYPE, SEQ]
  · simp [initiateRanging, memcpy, range_eight]
  · have h1 := hb 1 (by decide) (by decide)
    have h2 := hb 2 (by decide) (by decide)
    have h3 := hb 3 (by decide) (by decide)
    have h4 := hb 4 (by decide) (by decide)
    have h5 := hb 5 (by decide) (by decide)
    have h6 := hb 6 (by decide) (by decide)
    have h7 := hb 7 (by decide) (by decide)
    simp [initiateRanging, memcpy, range_eight, h1, h2, h3, h4, h5, h6, h7, anchorAddress]
  · intro hlt
    exact Nat.mod_eq_of_lt hlt

/-- C11 at the first timeout after start-up. -/
theorem timeout_starts_cycle_witness :
    baseAddressIntact (initState tagAddress) = true ∧
    (twrTagOnEvent noPacket uwbEvent_t.eventTimeout (initState tagAddress)).2
      = initiateRanging (initState tagAddress) ∧
    (initiateRanging (initState tagAddress)).curr_seq = ((initState tagAddress).curr_seq + 1) % 256 ∧
    (initiateRanging (initState tagAddress)).txPacket.payload 0 = 0x01 ∧
    (initiateRanging (initState tagAddress)).txPacket.payload 1
      = (initiateRanging (initState tagAddress)).curr_seq ∧
    (List.range 8).map (initiateRanging (initState tagAddress)).txPacket.sourceAddress
      = (List.range 8).map (initState tagAddress).config_address ∧
    (List.range 8).map (initiateRanging (initState tagAddress)).txPacket.destAddress
      = [1, 0, 0, 0, 0, 0, 0xcf, 0xbc] ∧
    (initiateRanging (initState tagAddress)).g_stats.interrogations
      = ((initState tagAddress).g_stats.interrogations + 1) % 2 ^ 32 ∧
    ((initState tagAddress).g_stats.interrogations + 1 < 2 ^ 32 →
      (initiateRanging (initState tagAddress)).g_stats.interrogations
        = (initState tagAddress).g_stats.interrogations + 1) ∧
    (initiateRanging (initState tagAddress)).g_stats.successful_interrogations
      = (initState tagAddress).g_stats.successful_interrogations ∧
    (initiateRanging (initState tagAddress)).g_stats.min_distance
      = (initState tagAddress).g_stats.min_distance ∧
    (initiateRanging (initState tagAddress)).g_stats.max_distance
      = (initState tagAddress).g_stats.max_distance ∧
    (initiateRanging (initState tagAddress)).g_stats.avg_distance
      = (initState tagAddress).g_stats.avg_distance ∧
    (initiateRanging (initState tagAddress)).g_stats.avg_rssi
      = (initState tagAddress).g_stats.avg_rssi :=
  ⟨by decide, timeout_starts_cycle noPacket (initState tagAddress) (by decide)⟩

/-- C12: for an ANSWER addressed to this node whose sequence byte is
`curr_seq`, `rxcallback` makes `txPacket` a FINAL (0x03) with the sequence
number of the ANSWER, which is `curr_seq`, addressed to the source of the
ANSWER with this node's address as source; it stores the receive timestamp
less half the antenna delay (in whole ticks: less 16476 for a 40-bit
timestamp of at least 16476) in `answer_rx`; `curr_seq`, the other five
timestamps and `g_stats` are unchanged. -/
theorem answer_handling (dev : dwDevice_t) (s : State)
    (hlen : dev.dataLength ≠ 0)
    (hdest : memcmp dev.rxPacket.destAddress s.config_address 8 = false)
    (hkind : dev.rxPacket.payload TYPE = ANSWER)
    (hseq : dev.rxPacket.payload SEQ = s.curr_seq) :
    (rxcallback dev s).txPacket.payload 0 = 0x03 ∧
    (rxcallback dev s).txPacket.payload 1 = dev.rxPacket.payload 1 ∧
    (rxcallback dev s).txPacket.payload 1 = s.curr_seq ∧
    (List.range 8).map (rxcallback dev s).txPacket.destAddress
      = (List.range 8).map dev.rxPacket.sourceAddress ∧
    (List.range 8).map (rxcallback dev s).txPacket.sourceAddress
      = (List.range 8).map s.config_address ∧
    (rxcallback dev s).answer_rx = subHalfDelay dev.receiveTimestamp ∧
    (16476 ≤ dev.receiveTimestamp → dev.receiveTimestamp < 2 ^ 40 →
      (rxcallback dev s).answer_rx = dev.receiveTimestamp - 16476) ∧
    (rxcallback dev s).curr_seq = s.curr_seq ∧
    (rxcallback dev s).poll_tx = s.poll_tx ∧
    (rxcallback dev s).poll_rx = s.poll_rx ∧
    (rxcallback dev s).answer_tx = s.answer_tx ∧
    (rxcallback dev s).final_tx = s.final_tx ∧
    (rxcallback dev s).final_rx = s.final_rx ∧
    (rxcallback dev s).g_stats = s.g_stats := by
  have hd := (memcmp_eq_false_iff _ _ _).mp hdest
  have hseq1 : dev.rxPacket.payload 1 = s.curr_seq := hseq
  rw [rxcallback_answer dev s hlen hdest hkind hseq]
  refine ⟨?_, ?_, ?_, ?_, ?_, rfl, ?_, rfl, rfl, rfl, rfl, rfl, rfl, rfl⟩
  · simp [SEQ, FINAL]
  · simp [SEQ, hseq1]
  · simp [SEQ]
  · simp [memcpy, range_eight]
  · simp [memcpy, range_eight, hd]
  · intro h1 h2
    exact subHalfDelay_eq _ h1 h2

/-- C12 at the first cycle: an ANSWER with sequence number 1 received at 200000. -/
theorem answer_handling_witness :
    (timedAnswer.dataLength ≠ 0 ∧
      memcmp timedAnswer.rxPacket.destAddress firstCycle.config_address 8 = false ∧
      timedAnswer.rxPacket.payload TYPE = ANSWER ∧
      timedAnswer.rxPacket.payload SEQ = firstCycle.curr_seq) ∧
    (rxcallback timedAnswer firstCycle).txPacket.payload 0 = 0x03 ∧
    (rxcallback timedAnswer firstCycle).txPacket.payload 1 = timedAnswer.rxPacket.payload 1 ∧
    (rxcallback timedAnswer firstCycle).txPacket.payload 1 = firstCycle.curr_seq ∧
    (List.range 8).map (rxcallback timedAnswer firstCycle).txPacket.destAddress
      = (List.range 8).map timedAnswer.rxPacket.sourceAddress ∧
    (List.range 8).map (rxcallback timedAnswer firstCycle).txPacket.sourceAddress
      = (List.range 8).map firstCycle.config_address ∧
    (rxcallback timedAnswer firstCycle).answer_rx = subHalfDelay timedAnswer.receiveTimestamp ∧
    (16476 ≤ timedAnswer.receiveTimestamp → timedAnswer.receiveTimestamp < 2 ^ 40 →
      (rxcallback timedAnswer firstCycle).answer_rx = timedAnswer.receiveTimestamp - 16476) ∧
    (rxcallback timedAnswer firstCycle).curr_seq = firstCycle.curr_seq ∧
    (rxcallback timedAnswer firstCycle).poll_tx = firstCycle.poll_tx ∧
    (rxcallback timedAnswer firstCycle).poll_rx = firstCycle.poll_rx ∧
    (rxcallback timedAnswer firstCycle).answer_tx = firstCycle.answer_tx ∧
    (rxcallback timedAnswer firstCycle).final_tx = firstCycle.final_tx ∧
    (rxcallback timedAnswer firstCycle).final_rx = firstCycle.final_rx ∧
    (rxcallback timedAnswer firstCycle).g_stats = firstCycle.g_stats :=
  ⟨⟨by decide, by decide, by decide, by decide⟩,
    answer_handling timedAnswer firstCycle (by decide) (by decide) (by decide) (by decide)⟩

/-- C13, as stated, fails: after a reset, an accepted REPORT whose four
intervals are all zero is not discarded; `successful_interrogations` goes
from 0 to 1 and `avg_distance` from 0 to NaN. -/
theorem degenerate_report_not_discarded :
    (allAccepted [zeroReport] zeroCycle = true ∧
      tround1 (copyReport zeroReport.rxPacket zeroCycle)
        + treply1 (copyReport zeroReport.rxPacket zeroCycle)
        + tround2 (copyReport zeroReport.rxPacket zeroCycle)
        + treply2 (copyReport zeroReport.rxPacket zeroCycle) = 0) ∧
    zeroCycle.g_stats.successful_interrogations = 0 ∧
    (rxcallback zeroReport zeroCycle).g_stats.successful_interrogations = 1 ∧
    zeroCycle.g_stats.avg_distance = Double.fin 0 ∧
    (rxcallback zeroReport zeroCycle).g_stats.avg_distance = Double.nan ∧
    (rxcallback zeroReport zeroCycle).g_stats ≠ zeroCycle.g_stats := by
  have hd : distance (copyReport zeroReport.rxPacket zeroCycle) = Double.nan :=
    distance_of_zero_intervals _ (by decide) (by decide) (by decide) (by decide)
  have hst : (rxcallback zeroReport zeroCycle).g_stats
      = updateStats zeroCycle.g_stats Double.nan zeroReport.receivePower := by
    rw [accepted_report_stats zeroReport zeroCycle (by decide), hd]
  have h1 : (rxcallback zeroReport zeroCycle).g_stats.successful_interrogations = 1 := by
    rw [hst]; rfl
  refine ⟨⟨by decide, by decide⟩, rfl, h1, rfl, ?_, ?_⟩
  · rw [hst]; rfl
  · intro h
    rw [h] at h1
    exact absurd h1 (by decide)

/-- C13, amended: for an accepted REPORT whose four intervals sum to zero the
sample is a NaN and it is recorded: `successful_interrogations` becomes the
old value plus 1 modulo `2^32` and `avg_distance` becomes NaN, while
`min_distance`, `max_distance` and `interrogations` keep their values. -/
theorem degenerate_report_recorded (dev : dwDevice_t) (s : State)
    (hlen : dev.dataLength ≠ 0)
    (hdest : memcmp dev.rxPacket.destAddress s.config_address 8 = false)
    (hkind : dev.rxPacket.payload TYPE = REPORT)
    (hseq : dev.rxPacket.payload SEQ = s.curr_seq)
    (hsum : sub32 (low32 s.answer_rx) (low32 s.poll_tx)
        + sub32 (low32 (answerTx dev.rxPacket)) (low32 (pollRx dev.rxPacket))
        + sub32 (low32 (finalRx dev.rxPacket)) (low32 (answerTx dev.rxPacket))
        + sub32 (low32 s.final_tx) (low32 s.answer_rx) = 0) :
    distance (copyReport dev.rxPacket s) = Double.nan ∧
    (rxcallback dev s).g_stats = updateStats s.g_stats Double.nan dev.receivePower ∧
    (rxcallback dev s).g_stats.successful_interrogations
      = (s.g_stats.successful_interrogations + 1) % 2 ^ 32 ∧
    (rxcallback dev s).g_stats.avg_distance = Double.nan ∧
    (rxcallback dev s).g_stats.min_distance = s.g_stats.min_distance ∧
    (rxcallback dev s).g_stats.max_distance = s.g_stats.max_distance ∧
    (rxcallback dev s).g_stats.interrogations = s.g_stats.interrogations := by
  obtain ⟨h1, h2, h3, h4⟩ := intervals_copyReport dev.rxPacket s
  have hd : distance (copyReport dev.rxPacket s) = Double.nan :=
    distance_of_zero_intervals _ (by rw [h1]; omega) (by rw [h2]; omega) (by rw [h3]; omega)
      (by rw [h4]; omega)
  have hacc : isAcceptedReport dev s = true :=
    (isAcceptedReport_iff dev s).mpr ⟨hlen, hdest, hkind, hseq⟩
  have hst : (rxcallback dev s).g_stats = updateStats s.g_stats Double.nan dev.receivePower := by
    rw [accepted_report_stats dev s hacc, hd]
  obtain ⟨hmin, hmax, havg⟩ := updateStats_nan s.g_stats dev.receivePower
  refine ⟨hd, hst, ?_, ?_, ?_, ?_, ?_⟩
  · rw [hst]; rfl
  · rw [hst]; exact havg
  · rw [hst]; exact hmin
  · rw [hst]; exact hmax
  · rw [hst]; rfl

/-- C13 at a REPORT with zero timestamps before any timestamp was captured. -/
theorem degenerate_report_recorded_witness :
    (zeroReport.dataLength ≠ 0 ∧
      memcmp zeroReport.rxPacket.destAddress zeroCycle.config_address 8 = false ∧
      zeroReport.rxPacket.payload TYPE = REPORT ∧
      zeroReport.rxPacket.payload SEQ = zeroCycle.curr_seq ∧
      sub32 (low32 zeroCycle.answer_rx) (low32 zeroCycle.poll_tx)
        + sub32 (low32 (answerTx zeroReport.rxPacket)) (low32 (pollRx zeroReport.rxPacket))
        + sub32 (low32 (finalRx zeroReport.rxPacket)) (low32 (answerTx zeroReport.rxPacket))
        + sub32 (low32 zeroCycle.final_tx) (low32 zeroCycle.answer_rx) = 0) ∧
    distance (copyReport zeroReport.rxPacket zeroCycle) = Double.nan ∧
    (rxcallback zeroReport zeroCycle).g_stats
      = updateStats zeroCycle.g_stats Double.nan zeroReport.receivePower ∧
    (rxcallback zeroReport zeroCycle).g_stats.successful_interrogations
      = (zeroCycle.g_stats.successful_interrogations + 1) % 2 ^ 32 ∧
    (rxcallback zeroReport zeroCycle).g_stats.avg_distance = Double.nan ∧
    (rxcallback zeroReport zeroCycle).g_stats.min_distance = zeroCycle.g_stats.min_distance ∧
    (rxcallback zeroReport zeroCycle).g_stats.max_distance = zeroCycle.g_stats.max_distance ∧
    (rxcallback zeroReport zeroCycle).g_stats.interrogations = zeroCycle.g_stats.interrogations :=
  ⟨⟨by decide, by decide, by decide, by decide, by decide⟩,
    degenerate_report_recorded zeroReport zeroCycle (by decide) (by decide) (by decide)
      (by decide) (by decide)⟩

/-- C14: a packet whose destination address differs from `config.address` in
one of its eight bytes leaves every variable as it was: `curr_seq`, the six
timestamps, `g_stats` and `txPacket`. -/
theorem foreign_message_discarded (dev : dwDevice_t) (s : State)
    (hdest : ∃ i, i < 8 ∧ dev.rxPacket.destAddress i ≠ s.config_address i) :
    rxcallback dev s = s := by
  have h := (memcmp_eq_true_iff _ _ _).mpr hdest
  by_cases hlen : dev.dataLength = 0
  · simp [rxcallback, hlen]
  · simp [rxcallback, hlen, h]

/-- C14 at a REPORT of the current cycle addressed to another node. -/
theorem foreign_message_discarded_witness :
    (foreignReport.dataLength ≠ 0 ∧
      foreignReport.rxPacket.destAddress 0 ≠ midCycle.config_address 0 ∧
      foreignReport.rxPacket.payload SEQ = midCycle.curr_seq) ∧
    rxcallback foreignReport midCycle = midCycle :=
  ⟨⟨by decide, by decide, by decide⟩,
    foreign_message_discarded foreignReport midCycle ⟨0, by decide, by decide⟩⟩

/-- C15, the code at one negative sample: from the reset statistics, an
accepted REPORT with intervals 100, 200, 50 and 150 gives the sample
`-(C * 50 / tsfreq)`; `min_distance` becomes that sample, but `max_distance`
stays at its initial value `DBL_MIN`, a positive number, and is not the
largest (the only) sample. -/
theorem max_stays_at_dbl_min :
    (negCycle.g_stats = C_INIT_STATS ∧ allAccepted [negReport] negCycle = true) ∧
    samples [negReport] negCycle = [Double.fin (-(C * 50 / tsfreq))] ∧
    (feedReports [negReport] negCycle).g_stats.min_distance = Double.fin (-(C * 50 / tsfreq)) ∧
    (feedReports [negReport] negCycle).g_stats.max_distance = DBL_MIN ∧
    DBL_MIN = Double.fin (1 / 2 ^ 1022) ∧
    (feedReports [negReport] negCycle).g_stats.max_distance ≠ Double.fin (-(C * 50 / tsfreq)) := by
  have e1 : tround1 (copyReport negReport.rxPacket negCycle) = 100 := by decide
  have e2 : treply1 (copyReport negReport.rxPacket negCycle) = 200 := by decide
  have e3 : tround2 (copyReport negReport.rxPacket negCycle) = 50 := by decide
  have e4 : treply2 (copyReport negReport.rxPacket negCycle) = 150 := by decide
  have hpos : (0 : ℚ) < C * 50 / tsfreq := by norm_num [C, tsfreq]
  have hd : distance (copyReport negReport.rxPacket negCycle)
      = Double.fin (-(C * 50 / tsfreq)) := by
    rw [distance_of_sum_ne_zero _ (by rw [e1, e2, e3, e4]; norm_num), e1, e2, e3, e4]
    congr 1
    norm_num
    ring
  have hst : (feedReports [negReport] negCycle).g_stats
      = updateStats C_INIT_STATS (Double.fin (-(C * 50 / tsfreq))) negReport.receivePower := by
    show (rxcallback negReport negCycle).g_stats = _
    rw [accepted_report_stats negReport negCycle (by decide), hd]
    rfl
  have hsmall : (0 : ℚ) < 1 / 2 ^ 1022 := by positivity
  have hbig : (0 : ℚ) < (2 ^ 53 - 1) * 2 ^ 971 := by
    apply mul_pos
    · norm_num
    · positivity
  have hmax : (feedReports [negReport] negCycle).g_stats.max_distance = DBL_MIN := by
    rw [hst]
    show Double.fin (max (1 / 2 ^ 1022) (-(C * 50 / tsfreq))) = Double.fin (1 / 2 ^ 1022)
    rw [max_eq_left (by linarith)]
  refine ⟨⟨rfl, by decide⟩, ?_, ?_, hmax, rfl, ?_⟩
  · show [distance (copyReport negReport.rxPacket negCycle)] = _
    rw [hd]
  · rw [hst]
    show Double.fin (min ((2 ^ 53 - 1) * 2 ^ 971) (-(C * 50 / tsfreq))) = _
    rw [min_eq_right (by linarith)]
  · rw [hmax]
    intro h
    injection h with h
    linarith

/-- C16, as stated, fails: `initiateRanging` writes none of the six
timestamps.  After a timeout in the middle of cycle 1, `poll_tx`,
`answer_rx` and `final_tx` still hold 1000, 1200 and 1250, and the interval
`tround1` of the new cycle is still 200. -/
theorem timeout_leaves_old_timestamps :
    (twrTagOnEvent noPacket uwbEvent_t.eventTimeout midCycle).2.curr_seq = 2 ∧
    (twrTagOnEvent noPacket uwbEvent_t.eventTimeout midCycle).2.poll_tx = 1000 ∧
    (twrTagOnEvent noPacket uwbEvent_t.eventTimeout midCycle).2.answer_rx = 1200 ∧
    (twrTagOnEvent noPacket uwbEvent_t.eventTimeout midCycle).2.final_tx = 1250 ∧
    (twrTagOnEvent noPacket uwbEvent_t.eventTimeout midCycle).2.poll_tx ≠ 0 ∧
    tround1 (twrTagOnEvent noPacket uwbEvent_t.eventTimeout midCycle).2 = 200 := by
  refine ⟨by decide, by decide, by decide, by decide, by decide, by decide⟩

/-- C16, amended: a timeout leaves each of the six timestamps `poll_tx`,
`poll_rx`, `answer_tx`, `answer_rx`, `final_tx`, `final_rx` at the value it
had before. -/
theorem timeout_keeps_timestamps (dev : dwDevice_t) (s : State) :
    (twrTagOnEvent dev uwbEvent_t.eventTimeout s).2.poll_tx = s.poll_tx ∧
    (twrTagOnEvent dev uwbEvent_t.eventTimeout s).2.poll_rx = s.poll_rx ∧
    (twrTagOnEvent dev uwbEvent_t.eventTimeout s).2.answer_tx = s.answer_tx ∧
    (twrTagOnEvent dev uwbEvent_t.eventTimeout s).2.answer_rx = s.answer_rx ∧
    (twrTagOnEvent dev uwbEvent_t.eventTimeout s).2.final_tx = s.final_tx ∧
    (twrTagOnEvent dev uwbEvent_t.eventTimeout s).2.final_rx = s.final_rx :=
  ⟨rfl, rfl, rfl, rfl, rfl, rfl⟩

/-- C17: `txcallback` stores the transmit timestamp plus half the antenna
delay (in whole ticks: plus 16475 for a 40-bit timestamp) in `poll_tx` when
`txPacket.payload[0]` is POLL and in `final_tx` when it is FINAL, and changes
nothing else; for any other kind it changes nothing at all; `curr_seq` and
`g_stats` are unchanged in every case. -/
theorem txcallback_capture (dev : dwDevice_t) (s : State) :
    (s.txPacket.payload 0 = POLL →
      txcallback dev s = { s with poll_tx := addHalfDelay dev.transmitTimestamp }) ∧
    (s.txPacket.payload 0 = FINAL →
      txcallback dev s = { s with final_tx := addHalfDelay dev.transmitTimestamp }) ∧
    (s.txPacket.payload 0 ≠ POLL → s.txPacket.payload 0 ≠ FINAL → txcallback dev s = s) ∧
    (dev.transmitTimestamp < 2 ^ 40 →
      addHalfDelay dev.transmitTimestamp = dev.transmitTimestamp + 16475) ∧
    (txcallback dev s).curr_seq = s.curr_seq ∧
    (txcallback dev s).g_stats = s.g_stats := by
  have hpf : POLL ≠ FINAL := by decide
  refine ⟨?_, ?_, ?_, addHalfDelay_eq _, txcallback_curr_seq dev s, ?_⟩
  · intro h
    simp [txcallback, h]
  · intro h
    have h2 : s.txPacket.payload 0 ≠ POLL := by rw [h]; exact fun e => hpf e.symm
    unfold txcallback
    simp only []
    rw [if_neg h2, if_pos h]
  · intro h1 h2
    simp [txcallback, h1, h2]
  · unfold txcallback
    simp only []
    split_ifs <;> rfl

/-- C17 at the first cycle: the POLL leaves at 100000, then the FINAL leaves
at 100000. -/
theorem txcallback_capture_witness :
    (firstCycle.txPacket.payload 0 = POLL ∧ finalCycle.txPacket.payload 0 = FINAL ∧
      timedAnswer.transmitTimestamp < 2 ^ 40) ∧
    txcallback timedAnswer firstCycle
      = { firstCycle with poll_tx := addHalfDelay timedAnswer.transmitTimestamp } ∧
    txcallback timedAnswer finalCycle
      = { finalCycle with final_tx := addHalfDelay timedAnswer.transmitTimestamp } ∧
    addHalfDelay timedAnswer.transmitTimestamp = timedAnswer.transmitTimestamp + 16475 :=
  ⟨⟨by decide, by decide, by decide⟩,
    (txcallback_capture timedAnswer firstCycle).1 (by decide),
    (txcallback_capture timedAnswer finalCycle).2.1 (by decide),
    (txcallback_capture timedAnswer firstCycle).2.2.2.1 (by decide)⟩

/-- C18: two REPORT packets that agree on their length, on the two
addresses, on kind and sequence byte and on the three timestamps
(`payload[0]` to `payload[16]`), received with the same power, lead to the
same `curr_seq`, the same six timestamps and the same `g_stats`, whatever
their sensor fields hold. -/
theorem sensor_fields_ignored (dev1 dev2 : dwDevice_t) (s : State)
    (hlen : dev1.dataLength = dev2.dataLength)
    (hpow : dev1.receivePower = dev2.receivePower)
    (hdst : ∀ i, i < 8 → dev1.rxPacket.destAddress i = dev2.rxPacket.destAddress i)
    (hsrc : ∀ i, i < 8 → dev1.rxPacket.sourceAddress i = dev2.rxPacket.sourceAddress i)
    (hpay : ∀ i, i < 17 → dev1.rxPacket.payload i = dev2.rxPacket.payload i)
    (hkind : dev1.rxPacket.payload TYPE = REPORT) :
    (rxcallback dev1 s).curr_seq = (rxcallback dev2 s).curr_seq ∧
    (rxcallback dev1 s).poll_tx = (rxcallback dev2 s).poll_tx ∧
    (rxcallback dev1 s).poll_rx = (rxcallback dev2 s).poll_rx ∧
    (rxcallback dev1 s).answer_tx = (rxcallback dev2 s).answer_tx ∧
    (rxcallback dev1 s).answer_rx = (rxcallback dev2 s).answer_rx ∧
    (rxcallback dev1 s).final_tx = (rxcallback dev2 s).final_tx ∧
    (rxcallback dev1 s).final_rx = (rxcallback dev2 s).final_rx ∧
    (rxcallback dev1 s).g_stats = (rxcallback dev2 s).g_stats ∧
    (List.range 8).map (rxcallback dev1 s).txPacket.destAddress
      = (List.range 8).map (rxcallback dev2 s).txPacket.destAddress := by
  have hp0 : dev1.rxPacket.payload TYPE = dev2.rxPacket.payload TYPE := hpay 0 (by decide)
  have hp1 : dev1.rxPacket.payload SEQ = dev2.rxPacket.payload SEQ := hpay 1 (by decide)
  have hkind2 : dev2.rxPacket.payload TYPE = REPORT := by rw [← hp0]; exact hkind
  have hacc : isAcceptedReport dev1 s = isAcceptedReport dev2 s := by
    unfold isAcceptedReport
    rw [hlen, memcmp_congr _ _ _ 8 hdst, hp0, hp1]
  have hcopy := copyReport_congr dev1.rxPacket dev2.rxPacket s hpay
  have htx : (List.range 8).map (rxcallback dev1 s).txPacket.destAddress
      = (List.range 8).map (rxcallback dev2 s).txPacket.destAddress := by
    have hk2 : REPORT ≠ ANSWER := by decide
    have hm := memcmp_congr _ _ s.config_address 8 hdst
    by_cases hl : dev2.dataLength = 0
    · simp [rxcallback, hlen, hl]
    · cases hd : memcmp dev2.rxPacket.destAddress s.config_address 8
      · by_cases hq : dev2.rxPacket.payload SEQ = s.curr_seq <;>
          simp [rxcallback, hlen, hl, hm, hd, hkind, hkind2, hk2, hp1, hq, copyReport, memcpy,
            range_eight, hsrc]
      · simp [rxcallback, hlen, hl, hm, hd]
  obtain ⟨a1, a2, a3, a4, a5⟩ := rxcallback_report_fields dev1 s hkind
  obtain ⟨b1, b2, b3, b4, b5⟩ := rxcallback_report_fields dev2 s hkind2
  refine ⟨a1.trans b1.symm, a2.trans b2.symm, ?_, ?_, a3.trans b3.symm, a4.trans b4.symm,
    ?_, ?_, htx⟩ <;>
  · rcases a5 with ⟨c0, c1, c2, c3, c4⟩ | ⟨c0, c1, c2, c3, c4⟩ <;>
      rcases b5 with ⟨d0, d1, d2, d3, d4⟩ | ⟨d0, d1, d2, d3, d4⟩
    · first
        | rw [c1, d1, hcopy]
        | rw [c2, d2, hcopy]
        | rw [c3, d3, hcopy]
        | rw [c4, d4, hcopy, hpow]
    · rw [hacc, d0] at c0
      exact absurd c0 (by decide)
    · rw [hacc, d0] at c0
      exact absurd c0 (by decide)
    · first
        | rw [c1, d1]
        | rw [c2, d2]
        | rw [c3, d3]
        | rw [c4, d4]

/-- C18 at two REPORTs of cycle 1 that differ in all four sensor fields. -/
theorem sensor_fields_ignored_witness :
    (goodReport.dataLength = sensorReport.dataLength ∧
      goodReport.receivePower = sensorReport.receivePower ∧
      (∀ i, i < 8 → goodReport.rxPacket.destAddress i = sensorReport.rxPacket.destAddress i) ∧
      (∀ i, i < 8 →
        goodReport.rxPacket.sourceAddress i = sensorReport.rxPacket.sourceAddress i) ∧
      (∀ i, i < 17 → goodReport.rxPacket.payload i = sensorReport.rxPacket.payload i) ∧
      goodReport.rxPacket.payload TYPE = REPORT ∧
      goodReport.rxPacket.payload 17 ≠ sensorReport.rxPacket.payload 17 ∧
      goodReport.rxPacket.payload 21 ≠ sensorReport.rxPacket.payload 21 ∧
      goodReport.rxPacket.payload 25 ≠ sensorReport.rxPacket.payload 25 ∧
      goodReport.rxPacket.payload 29 ≠ sensorReport.rxPacket.payload 29 ∧
      isAcceptedReport goodReport midCycle = true) ∧
    (rxcallback goodReport midCycle).curr_seq = (rxcallback sensorReport midCycle).curr_seq ∧
    (rxcallback goodReport midCycle).poll_tx = (rxcallback sensorReport midCycle).poll_tx ∧
    (rxcallback goodReport midCycle).poll_rx = (rxcallback sensorReport midCycle).poll_rx ∧
    (rxcallback goodReport midCycle).answer_tx = (rxcallback sensorReport midCycle).answer_tx ∧
    (rxcallback goodReport midCycle).answer_rx = (rxcallback sensorReport midCycle).answer_rx ∧
    (rxcallback goodReport midCycle).final_tx = (rxcallback sensorReport midCycle).final_tx ∧
    (rxcallback goodReport midCycle).final_rx = (rxcallback sensorReport midCycle).final_rx ∧
    (rxcallback goodReport midCycle).g_stats = (rxcallback sensorReport midCycle).g_stats ∧
    (List.range 8).map (rxcallback goodReport midCycle).txPacket.destAddress
      = (List.range 8).map (rxcallback sensorReport midCycle).txPacket.destAddress :=
  ⟨⟨by decide, rfl, by decide, by decide, by decide, by decide, by decide, by decide, by decide,
      by decide, by decide⟩,
    sensor_fields_ignored goodReport sensorReport midCycle (by decide) rfl (by decide)
      (by decide) (by decide) (by decide)⟩

/-- C19: the 32-bit subtraction `a.low32 - b.low32` that forms `tround1`,
`treply1`, `tround2` and `treply2` is `(a - b) mod 2^32`; so whenever the
elapsed tick count `(a - b) mod 2^40` is below `2^32` the interval is that
count, also when the low word wrapped or the high byte changed between `b`
and `a`; and every interval is non-negative. -/
theorem interval_subtraction_rollover (a b : ℕ) (s : State) :
    ((sub32 (low32 a) (low32 b) : ℕ) : ℤ) = ((a : ℤ) - b) % 2 ^ 32 ∧
    (((a : ℤ) - b) % 2 ^ 40 < 2 ^ 32 →
      ((sub32 (low32 a) (low32 b) : ℕ) : ℤ) = ((a : ℤ) - b) % 2 ^ 40) ∧
    (0 : ℤ) ≤ ((sub32 (low32 a) (low32 b) : ℕ) : ℤ) ∧
    tround1 s = sub32 (low32 s.answer_rx) (low32 s.poll_tx) ∧
    treply1 s = sub32 (low32 s.answer_tx) (low32 s.poll_rx) ∧
    tround2 s = sub32 (low32 s.final_rx) (low32 s.answer_tx) ∧
    treply2 s = sub32 (low32 s.final_tx) (low32 s.answer_rx) := by
  have h1 : ((sub32 (low32 a) (low32 b) : ℕ) : ℤ) = ((a : ℤ) - b) % 2 ^ 32 := by
    unfold sub32 low32
    omega
  refine ⟨h1, ?_, Int.natCast_nonneg _, rfl, rfl, rfl, rfl⟩
  intro h
  rw [h1]
  omega

/-- C19 at two pairs of 40-bit timestamps 200 and 150 ticks apart: in the
first the low word wraps and the high byte changes between `b` and `a`, in
the second the 40-bit counter itself wraps. -/
theorem interval_subtraction_rollover_witness :
    (((4294967396 : ℕ) : ℤ) - (4294967196 : ℕ)) % 2 ^ 40 < 2 ^ 32 ∧
    ((sub32 (low32 4294967396) (low32 4294967196) : ℕ) : ℤ)
      = (((4294967396 : ℕ) : ℤ) - (4294967196 : ℕ)) % 2 ^ 40 ∧
    sub32 (low32 4294967396) (low32 4294967196) = 200 ∧
    low32 4294967396 < low32 4294967196 ∧
    (((50 : ℕ) : ℤ) - (1099511627676 : ℕ)) % 2 ^ 40 < 2 ^ 32 ∧
    ((sub32 (low32 50) (low32 1099511627676) : ℕ) : ℤ)
      = (((50 : ℕ) : ℤ) - (1099511627676 : ℕ)) % 2 ^ 40 ∧
    sub32 (low32 50) (low32 1099511627676) = 150 :=
  ⟨by decide,
    (interval_subtraction_rollover 4294967396 4294967196 midCycle).2.1 (by decide),
    by decide, by decide, by decide,
    (interval_subtraction_rollover 50 1099511627676 midCycle).2.1 (by decide),
    by decide⟩

/-- C20, as stated, fails.  After one timeout a REPORT of the current cycle
that arrives twice is accepted twice: 2 successes for 1 interrogation.  And
after one timeout and a call of `printStats`, the REPORT of the current cycle
is still accepted: 1 success for 0 interrogations.  In both states the
subtraction in `printStats` wraps around to 4294967295. -/
theorem success_exceeds_attempts :
    (runSteps
        [Step.event noPacket uwbEvent_t.eventTimeout,
         Step.event goodReport uwbEvent_t.eventPacketReceived,
         Step.event goodReport uwbEvent_t.eventPacketReceived]
        (initState tagAddress)).map
      (fun s => (s.g_stats.interrogations, s.g_stats.successful_interrogations,
        (s.g_stats.interrogations + 2 ^ 32 - s.g_stats.successful_interrogations) % 2 ^ 32))
      = some (1, 2, 4294967295) ∧
    (runSteps
        [Step.event noPacket uwbEvent_t.eventTimeout,
         Step.print,
         Step.event goodReport uwbEvent_t.eventPacketReceived]
        (initState tagAddress)).map
      (fun s => (s.g_stats.interrogations, s.g_stats.successful_interrogations,
        (s.g_stats.interrogations + 2 ^ 32 - s.g_stats.successful_interrogations) % 2 ^ 32))
      = some (0, 1, 4294967295) ∧
    ¬ (2 ≤ 1) ∧ ¬ (1 ≤ 0) := by
  refine ⟨by decide, by decide, by decide, by decide⟩

/-- C20, amended: in a state reached from the initial state by events and
calls of `printStats`, `interrogations` is the number of timeouts and
`successful_interrogations` the number of accepted REPORTs since the last
call of `printStats`, both modulo `2^32`; so whenever no more REPORTs have
been accepted than timeouts have occurred, and fewer than `2^32` timeouts,
`successful_interrogations <= interrogations` and the subtraction in
`printStats` does not wrap around. -/
theorem success_le_attempts (steps : List Step) (address : Nat → Nat) (s' : State)
    (hrun : runSteps steps (initState address) = some s')
    (hle : (tally steps (initState address) (0, 0)).2 ≤ (tally steps (initState address) (0, 0)).1)
    (hlt : (tally steps (initState address) (0, 0)).1 < 2 ^ 32) :
    s'.g_stats.interrogations = (tally steps (initState address) (0, 0)).1 ∧
    s'.g_stats.successful_interrogations = (tally steps (initState address) (0, 0)).2 ∧
    s'.g_stats.successful_interrogations ≤ s'.g_stats.interrogations ∧
    (s'.g_stats.interrogations + 2 ^ 32 - s'.g_stats.successful_interrogations) % 2 ^ 32
      = s'.g_stats.interrogations - s'.g_stats.successful_interrogations := by
  obtain ⟨h1, h2⟩ := runSteps_counts steps (initState address) (0, 0) s' rfl rfl hrun
  rw [Nat.mod_eq_of_lt hlt] at h1
  rw [Nat.mod_eq_of_lt (lt_of_le_of_lt hle hlt)] at h2
  refine ⟨h1, h2, ?_, ?_⟩
  · rw [h1, h2]; exact hle
  · rw [h1, h2]; omega

/-- C20 at a run of two cycles with a call of `printStats` between them, the
second cycle completed by one REPORT. -/
theorem success_le_attempts_witness :
    (runSteps twoCycleSteps (initState tagAddress) = some twoCycles ∧
      tally twoCycleSteps (initState tagAddress) (0, 0) = (1, 1) ∧
      (tally twoCycleSteps (initState tagAddress) (0, 0)).1 < 2 ^ 32) ∧
    twoCycles.g_stats.interrogations = (tally twoCycleSteps (initState tagAddress) (0, 0)).1 ∧
    twoCycles.g_stats.successful_interrogations
      = (tally twoCycleSteps (initState tagAddress) (0, 0)).2 ∧
    twoCycles.g_stats.successful_interrogations ≤ twoCycles.g_stats.interrogations ∧
    (twoCycles.g_stats.interrogations + 2 ^ 32 - twoCycles.g_stats.successful_interrogations)
        % 2 ^ 32
      = twoCycles.g_stats.interrogations - twoCycles.g_stats.successful_interrogations :=
  ⟨⟨rfl, by decide, by decide⟩,
    success_le_attempts twoCycleSteps tagAddress twoCycles rfl (by decide) (by decide)⟩

end UwbTwrTag
